import Mathlib

/-!
Verification of the claw-machine game controller
(src/components/GameCanvas.tsx, first revision in the file, together with
src/services/physicsWorld.ts `findToyAt`).

Embedding conventions:
* JavaScript numbers are modelled as exact rationals (ℚ).  The per-tick
  animation rates (0.012, 0.025) divide the travel intervals exactly, so
  the exact-arithmetic model follows the float code's clamp logic faithfully.
* `Math.hypot(a, b) < r` comparisons are modelled by comparing squared
  distances (`a^2 + b^2 < r^2`), which is equivalent for nonnegative bounds,
  so no square roots are needed.
* The Matter.js physics engine is an external collaborator.  Its per-frame
  integration (`Matter.Engine.update`) is modelled as an arbitrary update
  function `upd : ℕ → BodyDyn` applied to every body in the world at the
  start of a tick; it can move bodies arbitrarily but cannot create or
  delete them.  The result list of `Matter.Query.ray` (which bodies the
  vertical ray collides with, already resolved to their top-level parent
  bodies) is likewise an external input `rayHits`; the controller's own
  processing of that list (label filter, nearest-below selection, head-part
  top computation) is embedded from the source.
* `Math.random()` is the per-tick input `rand`.
* React `useState` setters that only drive the UI (`setUiState`,
  `setDebugGesture`, `setCountdownValue`, `setShowSuccess` and its
  `setTimeout`) are presentation and are not modelled; `setScore` and
  `setCredits` mirror the modelled `score`/`creditsRef` values.
-/

set_option maxHeartbeats 4000000
set_option maxRecDepth 100000

namespace ClawMachine

/-- Gesture labels produced by the hand tracker (src/types.ts `GestureType`). -/
inductive GestureType
  | NONE
  | POINT
  | PINCH
  | OPEN
deriving DecidableEq

/-- Controller phases (src/types.ts `GameState`). -/
inductive GameState
  | WAITING_FOR_TOYS
  | COUNTDOWN
  | READY
  | DESCENDING
  | CLOSING
  | LIFTING
  | CARRYING
  | DROPPING
deriving DecidableEq

/-- Per-frame normalized hand sample (src/types.ts `HandInput`). -/
structure HandInput where
  x : ℚ
  y : ℚ
  gesture : GestureType
  isPresent : Bool
deriving DecidableEq

/-- A Matter.js body as the controller observes it: identity, label,
center-of-mass position, linear velocity, and the `parts` array
(`parts[0]` is the compound body itself, `parts[1]` the head, further
entries the ears), each part being its vertex list. -/
structure Body where
  id : ℕ
  label : String
  px : ℚ
  py : ℚ
  vx : ℚ
  vy : ℚ
  parts : List (List (ℚ × ℚ))
deriving DecidableEq

/-- The dynamic data a physics step may rewrite on a body. -/
structure BodyDyn where
  px : ℚ
  py : ℚ
  vx : ℚ
  vy : ℚ
  parts : List (List (ℚ × ℚ))
deriving DecidableEq

/-- The lift constraint created by `attemptGrab`: world anchor `pointA`
and the attached toy (`bodyB`).  Stiffness 0.8 and rest length 10 are
fixed constants of the source and carry no logic, so they are omitted. -/
structure Constraint where
  pointAx : ℚ
  pointAy : ℚ
  toyId : ℕ
deriving DecidableEq

/-- The controller's mutable refs (GameCanvas.tsx lines 20-49) plus the
physics world body list, which the controller owns within a tick. -/
structure GameSt where
  state : GameState
  clawX : ℚ
  clawY : ℚ
  clawDepth : ℚ
  clawAngle : ℚ
  attachedToy : Option ℕ
  toyConstraint : Option Constraint
  countdownTimer : ℤ
  isGripUnstable : Bool
  droppingToy : Option ℕ
  targetDescentDepth : ℚ
  credits : ℕ
  toysSettleTimer : ℕ
  lastGesture : GestureType
  hasTriggeredGrab : Bool
  openGestureFrames : ℕ
  score : ℕ
  world : List Body
deriving DecidableEq

/-- Everything a single `gameLoop` iteration reads from outside the
controller: the hand sample, canvas dimensions, the physics step, the ray
query result and the uniform random sample. -/
structure TickIn where
  hand : HandInput
  w : ℚ
  h : ℚ
  upd : ℕ → BodyDyn
  rayHits : List ℕ
  rand : ℚ

/-- Apply one external physics step (`Matter.Engine.update`): every body
keeps its identity and label, its dynamic data is rewritten. -/
def applyUpd (u : ℕ → BodyDyn) (w : List Body) : List Body :=
  w.map (fun b =>
    { b with px := (u b.id).px, py := (u b.id).py,
             vx := (u b.id).vx, vy := (u b.id).vy,
             parts := (u b.id).parts })

/-- GameCanvas.tsx lines 233-245 `areToysSettled`: false when no toys
exist yet (`toys.length === 0` keeps waiting); otherwise every toy's speed
must be below 2.0 (`hypot vx vy < 2` is compared as `vx^2 + vy^2 < 4`). -/
def areToysSettled (w : List Body) : Prop :=
  w.filter (fun b => b.label == "Toy") ≠ [] ∧
  ∀ t ∈ w.filter (fun b => b.label == "Toy"), t.vx ^ 2 + t.vy ^ 2 < 4

instance (w : List Body) : Decidable (areToysSettled w) := by
  unfold areToysSettled; infer_instance

/-- physicsWorld.ts `findToyAt`: nearest body labelled Toy whose center
distance to `(x, y)` is strictly below `radius` (and below all earlier
candidates); distances are compared squared. -/
def findToyAt (w : List Body) (x y radius : ℚ) : Option Body :=
  (w.foldl (fun acc b =>
    if b.label = "Toy" then
      if (b.px - x) ^ 2 + (b.py - y) ^ 2 < acc.2 then
        (some b, (b.px - x) ^ 2 + (b.py - y) ^ 2)
      else acc
    else acc) ((none : Option Body), radius ^ 2)).1

/-- Resolve a ray-collision body id in the current world
(`collision.body.parent || collision.body` followed by use of the body). -/
def lookupBody (w : List Body) (i : ℕ) : Option Body :=
  w.find? (fun b => b.id == i)

/-- GameCanvas.tsx lines 317-332: among the ray collisions, keep bodies
labelled Toy whose center lies strictly below the hub, and select the one
with the smallest such vertical distance (strict comparison, so the first
hit wins ties). -/
def selectNearestToy (w : List Body) (hits : List ℕ) (clawY : ℚ) :
    Option Body :=
  (hits.foldl (fun acc i =>
    match lookupBody w i with
    | some b =>
      if b.label = "Toy" then
        match acc with
        | none => if 0 < b.py - clawY then some (b, b.py - clawY) else none
        | some pr =>
          if 0 < b.py - clawY ∧ b.py - clawY < pr.2 then
            some (b, b.py - clawY)
          else some pr
      else acc
    | none => acc) (none : Option (Body × ℚ))).map Prod.fst

/-- Smallest y-coordinate among a vertex list (`topY` scan starting from
Infinity); `none` when the list is empty. -/
def minYofList (vs : List (ℚ × ℚ)) : Option ℚ :=
  vs.foldl (fun acc v =>
    match acc with
    | none => some v.2
    | some m => some (min m v.2)) none

/-- GameCanvas.tsx lines 338-359: top of the toy's head.  When the body is
a compound (`parts.length > 1`) only `parts[1]` (the head) is scanned;
otherwise all parts are scanned. -/
def headTopY (b : Body) : Option ℚ :=
  match b.parts with
  | _ :: p1 :: _ => minYofList p1
  | _ => minYofList b.parts.flatten

/-- GameCanvas.tsx lines 334-368: the one-shot descent target.  No toy
below gives the fixed 0.9; otherwise
`min 1 (max 0.1 ((topY - clawY - 40) / maxExtension))`.  The `none` branch
for an empty vertex list mirrors the JavaScript `Infinity` propagating to
`Math.min(1, ...) = 1` (for the positive `maxExtension` of every real
layout). -/
def computeDescentTarget (w : List Body) (hits : List ℕ)
    (clawY maxExt : ℚ) : ℚ :=
  match selectNearestToy w hits clawY with
  | none => 9 / 10
  | some b =>
    match headTopY b with
    | some ty => min 1 (max (1 / 10) ((ty - clawY - 40) / maxExt))
    | none => 1

/-- GameCanvas.tsx lines 398-411: per-tick slip probability.  Base rate
0.0035 for stable grips, 0.012 for unstable ones. -/
def slipBase (unstable : Bool) : ℚ :=
  if unstable then 12 / 1000 else 35 / 10000

/-- The base rate is doubled while lift progress `1 - clawDepth` is below
0.4. -/
def slipChance (unstable : Bool) (depth : ℚ) : ℚ :=
  if 1 - depth < 2 / 5 then 2 * slipBase unstable else slipBase unstable

/-- GameCanvas.tsx lines 534-543 `updateConstraint`: while a toy is
attached and a constraint exists, re-pin the anchor to the claw tip
`(clawX, clawY + clawDepth * maxExtension + 60)`. -/
def updateConstraint (maxExt : ℚ) (s : GameSt) : GameSt :=
  match s.attachedToy, s.toyConstraint with
  | some _, some c =>
    let c' : Constraint :=
      { c with pointAx := s.clawX,
               pointAy := s.clawY + s.clawDepth * maxExt + 60 }
    { s with toyConstraint := some c' }
  | _, _ => s

/-- GameCanvas.tsx lines 545-577 `attemptGrab`: query the nearest toy
within 22 px of the tip `(clawX, clawY + clawDepth * maxExtension + 60)`;
on a hit record the attachment, flag instability when the tip-to-center
distance exceeds 7 px (compared squared: `dsq > 49`), and create the lift
constraint anchored at the very same tip point; on a miss only clear the
instability flag. -/
def attemptGrab (maxExt : ℚ) (s : GameSt) : GameSt :=
  match findToyAt s.world s.clawX (s.clawY + s.clawDepth * maxExt + 60) 22 with
  | some b =>
    { s with attachedToy := some b.id,
             isGripUnstable :=
               if 49 <
                   (b.px - s.clawX) ^ 2 +
                   (b.py - (s.clawY + s.clawDepth * maxExt + 60)) ^ 2
               then true else false,
             toyConstraint :=
               some ⟨s.clawX, s.clawY + s.clawDepth * maxExt + 60, b.id⟩ }
  | none => { s with isGripUnstable := false }

/-- GameCanvas.tsx lines 248-260, WAITING_FOR_TOYS: bump the settle timer,
then leave for COUNTDOWN once the toys are settled or 300 ticks have
passed. -/
def tickWaiting (s : GameSt) : GameSt :=
  if areToysSettled s.world ∨ 300 ≤ s.toysSettleTimer + 1 then
    { s with state := GameState.COUNTDOWN, toysSettleTimer := 0 }
  else { s with toysSettleTimer := s.toysSettleTimer + 1 }

/-- GameCanvas.tsx lines 263-277, COUNTDOWN: decrement; at zero move to
READY. -/
def tickCountdown (s : GameSt) : GameSt :=
  if s.countdownTimer - 1 ≤ 0 then
    { s with countdownTimer := s.countdownTimer - 1,
             state := GameState.READY }
  else { s with countdownTimer := s.countdownTimer - 1 }

/-- GameCanvas.tsx lines 280-371, READY: force the claw open at the fixed
top height, reset the per-attempt flags, smooth the hub toward the cursor
when a hand is present, then fire a grab on a rising PINCH edge with
credits available — deducting one credit, entering DESCENDING and
computing the one-shot descent target from the downward ray. -/
def tickReady (hand : HandInput) (w h : ℚ) (hits : List ℕ)
    (s : GameSt) : GameSt :=
  let maxExt := h - s.clawY - 130
  let s1 := { s with clawAngle := 0, hasTriggeredGrab := false,
                     openGestureFrames := 0, clawY := 50 }
  let s2 :=
    if hand.isPresent = true then
      { s1 with clawX := s1.clawX + (hand.x * w - s1.clawX) * (1 / 4) }
    else s1
  let s3 := { s2 with lastGesture := hand.gesture }
  if (s.lastGesture ≠ GestureType.PINCH ∧
        hand.gesture = GestureType.PINCH ∧ hand.isPresent = true) ∧
      0 < s3.credits ∧ s3.hasTriggeredGrab = false then
    { s3 with hasTriggeredGrab := true,
              credits := s3.credits - 1,
              state := GameState.DESCENDING,
              targetDescentDepth :=
                computeDescentTarget s3.world hits s3.clawY maxExt }
  else s3

/-- GameCanvas.tsx lines 375-382, DESCENDING: extend by 0.012 per tick,
clamping to the precomputed target, at which point CLOSING begins. -/
def tickDescending (s : GameSt) : GameSt :=
  if s.targetDescentDepth ≤ s.clawDepth + 12 / 1000 then
    { s with clawDepth := s.targetDescentDepth,
             state := GameState.CLOSING }
  else { s with clawDepth := s.clawDepth + 12 / 1000 }

/-- GameCanvas.tsx lines 384-392, CLOSING: close by 0.025 per tick; at
full closure run the grip resolution and enter LIFTING. -/
def tickClosing (h : ℚ) (s : GameSt) : GameSt :=
  if 1 ≤ s.clawAngle + 25 / 1000 then
    let s1 := attemptGrab (h - s.clawY - 130) { s with clawAngle := 1 }
    { s1 with state := GameState.LIFTING }
  else { s with clawAngle := s.clawAngle + 25 / 1000 }

/-- GameCanvas.tsx lines 394-444, LIFTING: retract by 0.012; while a toy
is attached draw the slip sample against `slipChance` (computed from the
already-decremented depth) and on a slip drop constraint, attachment and
instability flag; when fully retracted go to CARRYING with a toy or snap
open back to READY without one; finally re-pin the constraint anchor. -/
def liftStep (rand : ℚ) (s : GameSt) : GameSt :=
  let s1 := { s with clawDepth := s.clawDepth - 12 / 1000 }
  let s2 :=
    match s1.attachedToy with
    | some _ =>
      if rand < slipChance s1.isGripUnstable s1.clawDepth then
        { s1 with toyConstraint := none, attachedToy := none,
                  isGripUnstable := false }
      else s1
    | none => s1
  if s2.clawDepth ≤ 0 then
    match s2.attachedToy with
    | some _ => { s2 with clawDepth := 0, state := GameState.CARRYING }
    | none => { s2 with clawDepth := 0, clawAngle := 0,
                        state := GameState.READY,
                        isGripUnstable := false }
  else s2

/-- GameCanvas.tsx line 443: the LIFTING case always ends by re-pinning
the constraint anchor. -/
def tickLifting (rand h : ℚ) (s : GameSt) : GameSt :=
  updateConstraint (h - s.clawY - 130) (liftStep rand s)

/-- GameCanvas.tsx lines 446-481, CARRYING: pin the hub height, smooth the
hub toward the cursor, re-pin the constraint, fall back to READY (claw
snapped open) if the attachment or constraint is missing, otherwise count
consecutive OPEN frames and release into DROPPING after 15 of them. -/
def carryMove (hand : HandInput) (w : ℚ) (s : GameSt) : GameSt :=
  let s1 := { s with clawY := 50 }
  if hand.isPresent = true then
    { s1 with clawX := s1.clawX + (hand.x * w - s1.clawX) * (1 / 4) }
  else s1

/-- GameCanvas.tsx lines 456-481: after the movement the constraint is
re-pinned and then the detach check and the OPEN-gesture release run. -/
def tickCarrying (hand : HandInput) (w h : ℚ) (s : GameSt) : GameSt :=
  let s3 := updateConstraint (h - s.clawY - 130) (carryMove hand w s)
  if s3.attachedToy = none ∨ s3.toyConstraint = none then
    { s3 with state := GameState.READY, clawAngle := 0,
              openGestureFrames := 0 }
  else
    let s4 :=
      if hand.isPresent = true ∧ hand.gesture = GestureType.OPEN then
        { s3 with openGestureFrames := s3.openGestureFrames + 1 }
      else { s3 with openGestureFrames := 0 }
    if 15 ≤ s4.openGestureFrames then
      { s4 with state := GameState.DROPPING, openGestureFrames := 0 }
    else s4

/-- GameCanvas.tsx lines 483-530, DROPPING: open the claw by 0.025 per
tick (clamped at 0); release the constraint exactly once, at which instant
exit-zone eligibility (`clawX ≥ 0.75 * width`) decides whether the toy is
tracked as falling; while a toy is tracked and observed below
`height + 100`, remove it from the world, clear tracking and add one to
the score; return to READY once fully open with nothing tracked. -/
def tickDropping (w h : ℚ) (s : GameSt) : GameSt :=
  let s1 := { s with openGestureFrames := 0 }
  let s2 :=
    if 0 < s1.clawAngle then
      { s1 with clawAngle :=
          if s1.clawAngle - 25 / 1000 < 0 then 0
          else s1.clawAngle - 25 / 1000 }
    else s1
  let s3 :=
    match s2.toyConstraint with
    | some _ =>
      { s2 with toyConstraint := none,
                droppingToy :=
                  match s2.attachedToy with
                  | some t =>
                    if w * (3 / 4) ≤ s2.clawX then some t
                    else s2.droppingToy
                  | none => s2.droppingToy,
                attachedToy := none }
    | none => s2
  let s4 :=
    match s3.droppingToy with
    | some t =>
      match lookupBody s3.world t with
      | some b =>
        if h + 100 < b.py then
          { s3 with world := s3.world.filter (fun bb => bb.id ≠ t),
                    droppingToy := none,
                    score := s3.score + 1 }
        else s3
      | none => s3
    | none => s3
  if s4.clawAngle = 0 ∧ s4.droppingToy = none then
    { s4 with state := GameState.READY, isGripUnstable := false }
  else s4

/-- Dispatch on the current phase (the READY `if` and the automated
`switch` of `updateStateMachine`). -/
def tickCore (i : TickIn) (s : GameSt) : GameSt :=
  match s.state with
  | GameState.WAITING_FOR_TOYS => tickWaiting s
  | GameState.COUNTDOWN => tickCountdown s
  | GameState.READY => tickReady i.hand i.w i.h i.rayHits s
  | GameState.DESCENDING => tickDescending s
  | GameState.CLOSING => tickClosing i.h s
  | GameState.LIFTING => tickLifting i.rand i.h s
  | GameState.CARRYING => tickCarrying i.hand i.w i.h s
  | GameState.DROPPING => tickDropping i.w i.h s

/-- The external physics step of a `gameLoop` iteration
(`Matter.Engine.update`): only the world changes. -/
def phys (i : TickIn) (s : GameSt) : GameSt :=
  { s with world := applyUpd i.upd s.world }

/-- One full `gameLoop` iteration: the physics step, then the state
machine. -/
def tick (i : TickIn) (s : GameSt) : GameSt :=
  tickCore i (phys i s)

/-- Initial controller state (GameCanvas.tsx lines 20-49 and the `init`
effect): WAITING_FOR_TOYS, claw centered at the fixed top height 50,
countdown 180 ticks, 5 credits, and the freshly spawned toy list. -/
def initSt (w : ℚ) (world0 : List Body) : GameSt :=
  { state := GameState.WAITING_FOR_TOYS
    clawX := w / 2
    clawY := 50
    clawDepth := 0
    clawAngle := 0
    attachedToy := none
    toyConstraint := none
    countdownTimer := 180
    isGripUnstable := false
    droppingToy := none
    targetDescentDepth := 1
    credits := 5
    toysSettleTimer := 0
    lastGesture := GestureType.NONE
    hasTriggeredGrab := false
    openGestureFrames := 0
    score := 0
    world := world0 }

/-- Run `n` ticks, feeding the input stream from the front. -/
def run (ins : ℕ → TickIn) : ℕ → GameSt → GameSt
  | 0, s => s
  | n + 1, s => run (fun k => ins (k + 1)) n (tick (ins 0) s)


/-! ### Concrete sample data for witnesses and counterexamples -/

/-- A tick with no hand detected. -/
def noHand : HandInput :=
  { x := 1 / 2, y := 1 / 2, gesture := GestureType.NONE, isPresent := false }

/-- A tick with a pinching hand at the screen center. -/
def pinchHand : HandInput :=
  { x := 1 / 2, y := 1 / 2, gesture := GestureType.PINCH, isPresent := true }

/-- A tick with an open hand at the screen center. -/
def openHand : HandInput :=
  { x := 1 / 2, y := 1 / 2, gesture := GestureType.OPEN, isPresent := true }

/-- A single resting toy far away from the claw track. -/
def sampleToy : Body :=
  { id := 0, label := "Toy", px := 10, py := 550, vx := 0, vy := 0,
    parts := [] }

/-- A physics step that reasserts `sampleToy`'s resting data, so the world
is a fixed point of the step. -/
def sampleDyn : BodyDyn :=
  { px := 10, py := 550, vx := 0, vy := 0, parts := [] }

/-- Canvas 800 x 600, no ray hits, random sample 1 (never below any slip
probability). -/
def mkIn (hand : HandInput) : TickIn :=
  { hand := hand, w := 800, h := 600, upd := fun _ => sampleDyn,
    rayHits := [], rand := 1 }

/-- Input stream for the concrete end-to-end trace: hands off except one
pinch at tick 181 (the first READY tick). -/
def cexInput (n : ℕ) : TickIn :=
  if n = 181 then mkIn pinchHand else mkIn noHand

/-- Start of the concrete trace: the fresh session with one resting toy. -/
def cexStart : GameSt := initSt 800 [sampleToy]

/-- The concrete end-to-end trace itself. -/
def cexRun (n : ℕ) : GameSt := run cexInput n cexStart

/-- A CARRYING state whose constraint handle is missing while a toy
reference and the instability flag are still set. -/
def carryDetachedSt : GameSt :=
  { cexStart with state := GameState.CARRYING, clawAngle := 1,
                  attachedToy := some 0, toyConstraint := none,
                  isGripUnstable := true }

/-- A compound toy straight below the claw track: `parts[0]` is the
compound placeholder, `parts[1]` the head (top vertex y = 480), the last
part an ear reaching higher (y = 380) that the targeting must ignore. -/
def rayToy : Body :=
  { id := 3, label := "Toy", px := 400, py := 500, vx := 0, vy := 0,
    parts := [[], [(390, 480), (410, 480), (400, 520)],
              [(380, 400), (395, 400), (388, 380)]] }

/-- Physics step data that keeps `rayToy` exactly in place. -/
def rayDyn : BodyDyn :=
  { px := 400, py := 500, vx := 0, vy := 0,
    parts := [[], [(390, 480), (410, 480), (400, 520)],
              [(380, 400), (395, 400), (388, 380)]] }

/-- Pinch input whose downward ray reports `rayToy`. -/
def rayIn : TickIn :=
  { hand := pinchHand, w := 800, h := 600, upd := fun _ => rayDyn,
    rayHits := [3], rand := 1 }

/-- A toy sitting 2 px below the claw tip at depth 0.9 over an 800 x 600
canvas. -/
def grabToy : Body :=
  { id := 7, label := "Toy", px := 400, py := 490, vx := 0, vy := 0,
    parts := [] }

/-- A READY-shaped state whose world holds `grabToy` (used to exercise
`attemptGrab` directly). -/
def grabSt : GameSt :=
  { cexStart with clawDepth := 9 / 10, world := [grabToy] }

/-- A mid-lift state carrying toy 0 on a constraint about to be re-pinned. -/
def liftSt : GameSt :=
  { cexStart with state := GameState.LIFTING, clawDepth := 1 / 2,
                  clawAngle := 1, attachedToy := some 0,
                  toyConstraint := some ⟨0, 0, 0⟩ }

/-- A physics step that has carried toy 0 below the screen bottom. -/
def fallDyn : BodyDyn :=
  { px := 10, py := 800, vx := 0, vy := 0, parts := [] }

/-- The input whose physics step drops the tracked toy off screen. -/
def fallIn : TickIn :=
  { hand := noHand, w := 800, h := 600, upd := fun _ => fallDyn,
    rayHits := [], rand := 1 }

/-- Toy 0 as observed after `fallDyn`. -/
def fallenToy : Body :=
  { id := 0, label := "Toy", px := 10, py := 800, vx := 0, vy := 0,
    parts := [] }

/-- A DROPPING state at the instant of release, claw left of the exit
zone. -/
def dropReleaseSt : GameSt :=
  { cexStart with state := GameState.DROPPING, clawAngle := 1,
                  attachedToy := some 0, toyConstraint := some ⟨0, 0, 0⟩ }

/-- A DROPPING state tracking toy 0 as it falls in the exit zone. -/
def dropTrackSt : GameSt :=
  { cexStart with state := GameState.DROPPING, clawAngle := 1 / 2,
                  droppingToy := some 0 }

/-! ### The C2 invariant and the C2 trace snapshots -/

/-- The controller invariant behind the motion bounds: depth and angle in
[0,1], the stored target in [0.1, 1], depth never above the target while
descending, and the claw fully retracted in the phases that hold it up. -/
def Inv (s : GameSt) : Prop :=
  0 ≤ s.clawDepth ∧ s.clawDepth ≤ 1 ∧ 0 ≤ s.clawAngle ∧ s.clawAngle ≤ 1 ∧
  1 / 10 ≤ s.targetDescentDepth ∧ s.targetDescentDepth ≤ 1 ∧
  (s.state = GameState.DESCENDING → s.clawDepth ≤ s.targetDescentDepth) ∧
  ((s.state = GameState.WAITING_FOR_TOYS ∨ s.state = GameState.COUNTDOWN ∨
      s.state = GameState.READY ∨ s.state = GameState.CARRYING ∨
      s.state = GameState.DROPPING) → s.clawDepth = 0)

/-- Countdown-phase snapshot of the concrete trace. -/
def cdPh (t : ℤ) : GameSt :=
  { cexStart with state := GameState.COUNTDOWN, countdownTimer := t }

/-- The first READY snapshot of the concrete trace. -/
def rdPh : GameSt :=
  { cexStart with state := GameState.READY, countdownTimer := 0 }

/-- Descending-phase snapshot of the concrete trace. -/
def dsPh (d : ℚ) : GameSt :=
  { cexStart with
    state := GameState.DESCENDING
    countdownTimer := 0
    clawDepth := d
    targetDescentDepth := 9 / 10
    credits := 4
    lastGesture := GestureType.PINCH
    hasTriggeredGrab := true }

/-- Closing-phase snapshot of the concrete trace. -/
def clPh (a : ℚ) : GameSt :=
  { dsPh (9 / 10) with state := GameState.CLOSING, clawAngle := a }

/-- Lifting-phase snapshot of the concrete trace (after the missed grab). -/
def lfPh (d : ℚ) : GameSt :=
  { dsPh d with state := GameState.LIFTING, clawAngle := 1 }

/-- The snapshot right after the missed lift completes. -/
def endPh : GameSt :=
  { dsPh 0 with state := GameState.READY }

/-! ### Basic dispatch and frame lemmas -/

theorem phys_state (i : TickIn) (s : GameSt) : (phys i s).state = s.state := rfl

theorem phys_clawX (i : TickIn) (s : GameSt) : (phys i s).clawX = s.clawX := rfl

theorem phys_clawY (i : TickIn) (s : GameSt) : (phys i s).clawY = s.clawY := rfl

theorem phys_clawDepth (i : TickIn) (s : GameSt) :
    (phys i s).clawDepth = s.clawDepth := rfl

theorem phys_clawAngle (i : TickIn) (s : GameSt) :
    (phys i s).clawAngle = s.clawAngle := rfl

theorem phys_attachedToy (i : TickIn) (s : GameSt) :
    (phys i s).attachedToy = s.attachedToy := rfl

theorem phys_toyConstraint (i : TickIn) (s : GameSt) :
    (phys i s).toyConstraint = s.toyConstraint := rfl

theorem phys_countdownTimer (i : TickIn) (s : GameSt) :
    (phys i s).countdownTimer = s.countdownTimer := rfl

theorem phys_isGripUnstable (i : TickIn) (s : GameSt) :
    (phys i s).isGripUnstable = s.isGripUnstable := rfl

theorem phys_droppingToy (i : TickIn) (s : GameSt) :
    (phys i s).droppingToy = s.droppingToy := rfl

theorem phys_targetDescentDepth (i : TickIn) (s : GameSt) :
    (phys i s).targetDescentDepth = s.targetDescentDepth := rfl

theorem phys_credits (i : TickIn) (s : GameSt) :
    (phys i s).credits = s.credits := rfl

theorem phys_toysSettleTimer (i : TickIn) (s : GameSt) :
    (phys i s).toysSettleTimer = s.toysSettleTimer := rfl

theorem phys_lastGesture (i : TickIn) (s : GameSt) :
    (phys i s).lastGesture = s.lastGesture := rfl

theorem phys_hasTriggeredGrab (i : TickIn) (s : GameSt) :
    (phys i s).hasTriggeredGrab = s.hasTriggeredGrab := rfl

theorem phys_openGestureFrames (i : TickIn) (s : GameSt) :
    (phys i s).openGestureFrames = s.openGestureFrames := rfl

theorem phys_score (i : TickIn) (s : GameSt) : (phys i s).score = s.score := rfl

theorem phys_world (i : TickIn) (s : GameSt) :
    (phys i s).world = applyUpd i.upd s.world := rfl

attribute [simp] phys_state phys_clawX phys_clawY phys_clawDepth
  phys_clawAngle phys_attachedToy phys_toyConstraint phys_countdownTimer
  phys_isGripUnstable phys_droppingToy phys_targetDescentDepth phys_credits
  phys_toysSettleTimer phys_lastGesture phys_hasTriggeredGrab
  phys_openGestureFrames phys_score phys_world

theorem tick_waiting (i : TickIn) (s : GameSt)
    (h : s.state = GameState.WAITING_FOR_TOYS) :
    tick i s = tickWaiting (phys i s) := by
  simp only [tick, tickCore, phys_state, h]

theorem tick_countdown (i : TickIn) (s : GameSt)
    (h : s.state = GameState.COUNTDOWN) :
    tick i s = tickCountdown (phys i s) := by
  simp only [tick, tickCore, phys_state, h]

theorem tick_ready (i : TickIn) (s : GameSt)
    (h : s.state = GameState.READY) :
    tick i s = tickReady i.hand i.w i.h i.rayHits (phys i s) := by
  simp only [tick, tickCore, phys_state, h]

theorem tick_descending (i : TickIn) (s : GameSt)
    (h : s.state = GameState.DESCENDING) :
    tick i s = tickDescending (phys i s) := by
  simp only [tick, tickCore, phys_state, h]

theorem tick_closing (i : TickIn) (s : GameSt)
    (h : s.state = GameState.CLOSING) :
    tick i s = tickClosing i.h (phys i s) := by
  simp only [tick, tickCore, phys_state, h]

theorem tick_lifting (i : TickIn) (s : GameSt)
    (h : s.state = GameState.LIFTING) :
    tick i s = tickLifting i.rand i.h (phys i s) := by
  simp only [tick, tickCore, phys_state, h]

theorem tick_carrying (i : TickIn) (s : GameSt)
    (h : s.state = GameState.CARRYING) :
    tick i s = tickCarrying i.hand i.w i.h (phys i s) := by
  simp only [tick, tickCore, phys_state, h]

theorem tick_dropping (i : TickIn) (s : GameSt)
    (h : s.state = GameState.DROPPING) :
    tick i s = tickDropping i.w i.h (phys i s) := by
  simp only [tick, tickCore, phys_state, h]

theorem updateConstraint_frame (maxExt : ℚ) (s : GameSt) :
    (updateConstraint maxExt s).credits = s.credits ∧
    (updateConstraint maxExt s).score = s.score ∧
    (updateConstraint maxExt s).lastGesture = s.lastGesture ∧
    (updateConstraint maxExt s).state = s.state ∧
    (updateConstraint maxExt s).attachedToy = s.attachedToy ∧
    (updateConstraint maxExt s).clawDepth = s.clawDepth ∧
    (updateConstraint maxExt s).clawAngle = s.clawAngle ∧
    (updateConstraint maxExt s).clawX = s.clawX ∧
    (updateConstraint maxExt s).clawY = s.clawY ∧
    (updateConstraint maxExt s).world = s.world ∧
    (updateConstraint maxExt s).droppingToy = s.droppingToy ∧
    (updateConstraint maxExt s).isGripUnstable = s.isGripUnstable ∧
    (updateConstraint maxExt s).targetDescentDepth = s.targetDescentDepth := by
  rcases ha : s.attachedToy with _ | t <;> rcases hc : s.toyConstraint with _ | c <;>
    simp [updateConstraint, ha, hc]

theorem attemptGrab_frame (maxExt : ℚ) (s : GameSt) :
    (attemptGrab maxExt s).credits = s.credits ∧
    (attemptGrab maxExt s).score = s.score ∧
    (attemptGrab maxExt s).lastGesture = s.lastGesture ∧
    (attemptGrab maxExt s).state = s.state ∧
    (attemptGrab maxExt s).clawDepth = s.clawDepth ∧
    (attemptGrab maxExt s).clawAngle = s.clawAngle ∧
    (attemptGrab maxExt s).world = s.world ∧
    (attemptGrab maxExt s).droppingToy = s.droppingToy ∧
    (attemptGrab maxExt s).targetDescentDepth = s.targetDescentDepth := by
  rcases hf : findToyAt s.world s.clawX (s.clawY + s.clawDepth * maxExt + 60) 22
    with _ | b <;> simp [attemptGrab, hf]

/-- Outside READY the tick never touches credits or the debounce history,
and outside DROPPING it never touches the score. -/
theorem tick_frame (i : TickIn) (s : GameSt) :
    (s.state ≠ GameState.READY →
      (tick i s).credits = s.credits ∧
      (tick i s).lastGesture = s.lastGesture) ∧
    (s.state ≠ GameState.DROPPING → (tick i s).score = s.score) := by
  rcases hs : s.state
  case WAITING_FOR_TOYS =>
    rw [tick_waiting i s hs]
    unfold tickWaiting
    repeat' split
    all_goals simp
  case COUNTDOWN =>
    rw [tick_countdown i s hs]
    unfold tickCountdown
    repeat' split
    all_goals simp
  case READY =>
    rw [tick_ready i s hs]
    refine ⟨fun h => absurd rfl h, fun _ => ?_⟩
    unfold tickReady
    dsimp only
    repeat' split
    all_goals simp
  case DESCENDING =>
    rw [tick_descending i s hs]
    unfold tickDescending
    repeat' split
    all_goals simp
  case CLOSING =>
    rw [tick_closing i s hs]
    unfold tickClosing attemptGrab
    dsimp only
    repeat' split
    all_goals simp
  case LIFTING =>
    rw [tick_lifting i s hs]
    unfold tickLifting liftStep updateConstraint
    dsimp only
    repeat' split
    all_goals simp
  case CARRYING =>
    rw [tick_carrying i s hs]
    unfold tickCarrying carryMove updateConstraint
    dsimp only
    repeat' split
    all_goals simp
  case DROPPING =>
    rw [tick_dropping i s hs]
    refine ⟨fun _ => ?_, fun h => absurd rfl h⟩
    unfold tickDropping
    dsimp only
    rcases hc : s.toyConstraint with _ | c <;>
      rcases hd : s.droppingToy with _ | t <;>
      simp only [apply_ite GameSt.toyConstraint, apply_ite GameSt.droppingToy,
        apply_ite GameSt.credits, apply_ite GameSt.lastGesture,
        apply_ite GameSt.clawAngle, hc, hd, ite_self] <;>
      repeat' split
    all_goals simp [hd]

/-! ### C7 -/

/-- C7: for every tick, a grab trigger observed in READY while credits
equal 0 causes no transition to DESCENDING and no change to credits. -/
theorem zeroCreditsNoGrab (i : TickIn) (s : GameSt)
    (hs : s.state = GameState.READY) (hc : s.credits = 0) :
    (tick i s).state = GameState.READY ∧ (tick i s).credits = 0 := by
  rw [tick_ready i s hs]
  unfold tickReady
  dsimp only
  simp [apply_ite GameSt.credits, apply_ite GameSt.state,
    apply_ite GameSt.hasTriggeredGrab, ite_self, hc, hs]

/-- Witness for C7 at a concrete READY state with zero credits. -/
theorem zeroCreditsNoGrabWitness :
    (tick (mkIn pinchHand)
        { cexStart with state := GameState.READY, credits := 0 }).state =
      GameState.READY ∧
    (tick (mkIn pinchHand)
        { cexStart with state := GameState.READY, credits := 0 }).credits = 0 :=
  zeroCreditsNoGrab (mkIn pinchHand)
    { cexStart with state := GameState.READY, credits := 0 } rfl rfl

/-! ### C1 -/

/-- Full description of the READY tick that fires a grab: a rising PINCH
edge with a hand present and positive credits deducts one credit, enters
DESCENDING and stores the one-shot descent target. -/
theorem tickReady_trigger (i : TickIn) (s : GameSt)
    (hs : s.state = GameState.READY)
    (hl : s.lastGesture ≠ GestureType.PINCH)
    (hg : i.hand.gesture = GestureType.PINCH)
    (hp : i.hand.isPresent = true)
    (hc : 0 < s.credits) :
    tick i s =
      { s with
          clawAngle := 0, hasTriggeredGrab := true, openGestureFrames := 0,
          clawY := 50,
          clawX := s.clawX + (i.hand.x * i.w - s.clawX) * (1 / 4),
          lastGesture := GestureType.PINCH,
          credits := s.credits - 1,
          state := GameState.DESCENDING,
          targetDescentDepth :=
            computeDescentTarget (applyUpd i.upd s.world) i.rayHits 50
              (i.h - s.clawY - 130),
          world := applyUpd i.upd s.world } := by
  rw [tick_ready i s hs]
  unfold tickReady
  dsimp only
  simp [hp, hg, hl, hc, apply_ite GameSt.credits,
    apply_ite GameSt.hasTriggeredGrab, ite_self]

/-- A PINCH that was already held in the previous frame never re-triggers
in READY: credits and phase are unchanged and the debounce history stays
PINCH. -/
theorem tick_heldPinch (i : TickIn) (s : GameSt)
    (hl : s.lastGesture = GestureType.PINCH)
    (hg : i.hand.gesture = GestureType.PINCH) :
    (tick i s).credits = s.credits ∧
    (tick i s).lastGesture = GestureType.PINCH ∧
    (s.state = GameState.READY → (tick i s).state = GameState.READY) := by
  by_cases hs : s.state = GameState.READY
  · rw [tick_ready i s hs]
    unfold tickReady
    dsimp only
    simp [hl, hg, hs, apply_ite GameSt.credits, apply_ite GameSt.state,
      apply_ite GameSt.lastGesture, ite_self]
  · have h1 := (tick_frame i s).1 hs
    exact ⟨h1.1, h1.2.trans hl, fun h => absurd h hs⟩

/-- Over any number of ticks with the PINCH held every frame, no credit is
ever deducted. -/
theorem run_heldPinch (n : ℕ) :
    ∀ (ins : ℕ → TickIn) (s : GameSt),
      s.lastGesture = GestureType.PINCH →
      (∀ k, (ins k).hand.gesture = GestureType.PINCH) →
      (run ins n s).credits = s.credits ∧
      (run ins n s).lastGesture = GestureType.PINCH := by
  induction n with
  | zero => exact fun ins s hl _ => ⟨rfl, hl⟩
  | succ m ih =>
    intro ins s hl hg
    have h1 := tick_heldPinch (ins 0) s hl (hg 0)
    have h2 := ih (fun k => ins (k + 1)) (tick (ins 0) s) h1.2.1
      (fun k => hg (k + 1))
    simp only [run]
    exact ⟨h2.1.trans h1.1, h2.2⟩

/-- C1: a grab triggered from READY (rising-edge PINCH, hand present,
credits positive) deducts exactly one credit in that same tick, the tick
in which the state becomes DESCENDING; and a PINCH held across any number
of subsequent frames causes no further deduction and no second trigger
(in READY a held PINCH leaves credits and the READY phase untouched). -/
theorem creditDeductedOncePerTrigger :
    (∀ (i : TickIn) (s : GameSt),
        s.state = GameState.READY → s.lastGesture ≠ GestureType.PINCH →
        i.hand.gesture = GestureType.PINCH → i.hand.isPresent = true →
        0 < s.credits →
        (tick i s).credits = s.credits - 1 ∧
        (tick i s).state = GameState.DESCENDING ∧
        (tick i s).lastGesture = GestureType.PINCH) ∧
    (∀ (i : TickIn) (s : GameSt),
        s.state = GameState.READY → s.lastGesture = GestureType.PINCH →
        i.hand.gesture = GestureType.PINCH →
        (tick i s).credits = s.credits ∧
        (tick i s).state = GameState.READY) ∧
    (∀ (ins : ℕ → TickIn) (n : ℕ) (s : GameSt),
        s.lastGesture = GestureType.PINCH →
        (∀ k, (ins k).hand.gesture = GestureType.PINCH) →
        (run ins n s).credits = s.credits) := by
  refine ⟨fun i s hs hl hg hp hc => ?_, fun i s hs hl hg => ?_,
    fun ins n s hl hg => (run_heldPinch n ins s hl hg).1⟩
  · rw [tickReady_trigger i s hs hl hg hp hc]
    simp
  · have h1 := tick_heldPinch i s hl hg
    exact ⟨h1.1, h1.2.2 hs⟩

/-- Witness for C1: firing the trigger from a concrete READY state with 5
credits deducts exactly one, and ten further held-PINCH ticks deduct
nothing. -/
theorem creditDeductedOncePerTriggerWitness :
    ((tick (mkIn pinchHand) { cexStart with state := GameState.READY }).credits
        = 5 - 1 ∧
      (tick (mkIn pinchHand) { cexStart with state := GameState.READY }).state
        = GameState.DESCENDING ∧
      (tick (mkIn pinchHand)
          { cexStart with state := GameState.READY }).lastGesture
        = GestureType.PINCH) ∧
    (run (fun _ => mkIn pinchHand) 10
        { cexStart with state := GameState.READY,
                        lastGesture := GestureType.PINCH }).credits = 5 := by
  constructor
  · exact creditDeductedOncePerTrigger.1 (mkIn pinchHand)
      { cexStart with state := GameState.READY } rfl
      (by simp [cexStart, initSt]) rfl rfl (by simp [cexStart, initSt])
  · exact creditDeductedOncePerTrigger.2.2 (fun _ => mkIn pinchHand) 10
      { cexStart with state := GameState.READY,
                      lastGesture := GestureType.PINCH } rfl (fun _ => rfl)

/-! ### C6 -/

/-- C6: the slip check runs only in LIFTING (every other phase is
independent of the random sample), and only while a toy is attached (the
LIFTING tick without a toy is also independent of the sample); with a toy
attached, detachment this tick happens exactly when the sample falls below
`slipChance`; the per-tick probability is strictly higher for unstable
grips, and for each stability level it is exactly doubled while lift
progress `1 - extensionDepth` is below 0.4. -/
theorem slipModelSpec :
    (∀ (i : TickIn) (r r' : ℚ) (s : GameSt),
        s.state ≠ GameState.LIFTING →
        tick { i with rand := r } s = tick { i with rand := r' } s) ∧
    (∀ (i : TickIn) (r r' : ℚ) (s : GameSt),
        s.state = GameState.LIFTING → s.attachedToy = none →
        tick { i with rand := r } s = tick { i with rand := r' } s) ∧
    (∀ (i : TickIn) (s : GameSt) (t : ℕ),
        s.state = GameState.LIFTING → s.attachedToy = some t →
        ((i.rand < slipChance s.isGripUnstable (s.clawDepth - 12 / 1000) →
            (tick i s).attachedToy = none ∧ (tick i s).toyConstraint = none) ∧
         (¬ i.rand < slipChance s.isGripUnstable (s.clawDepth - 12 / 1000) →
            (tick i s).attachedToy = some t))) ∧
    (∀ d : ℚ, slipChance false d < slipChance true d) ∧
    (∀ (u : Bool) (d d' : ℚ),
        1 - d < 2 / 5 → ¬ 1 - d' < 2 / 5 →
        slipChance u d = 2 * slipChance u d') := by
  refine ⟨fun i r r' s h => ?_, fun i r r' s hs ha => ?_,
    fun i s t hs ha => ?_, fun d => ?_, fun u d d' h1 h2 => ?_⟩
  · rcases hs : s.state
    case LIFTING => exact absurd hs h
    case WAITING_FOR_TOYS =>
      rw [tick_waiting _ s hs, tick_waiting _ s hs]
      exact rfl
    case COUNTDOWN =>
      rw [tick_countdown _ s hs, tick_countdown _ s hs]
      exact rfl
    case READY =>
      rw [tick_ready _ s hs, tick_ready _ s hs]
      exact rfl
    case DESCENDING =>
      rw [tick_descending _ s hs, tick_descending _ s hs]
      exact rfl
    case CLOSING =>
      rw [tick_closing _ s hs, tick_closing _ s hs]
      exact rfl
    case CARRYING =>
      rw [tick_carrying _ s hs, tick_carrying _ s hs]
      exact rfl
    case DROPPING =>
      rw [tick_dropping _ s hs, tick_dropping _ s hs]
      exact rfl
  · rw [tick_lifting _ s hs, tick_lifting _ s hs]
    unfold tickLifting liftStep
    dsimp only
    simp [ha]
  · constructor
    · intro hr
      rw [tick_lifting i s hs]
      unfold tickLifting liftStep updateConstraint
      dsimp only
      simp only [phys_attachedToy, phys_isGripUnstable, phys_clawDepth, ha]
      simp only [hr, if_true]
      repeat' split
      all_goals simp_all
    · intro hr
      rw [tick_lifting i s hs]
      unfold tickLifting liftStep updateConstraint
      dsimp only
      simp only [phys_attachedToy, phys_isGripUnstable, phys_clawDepth, ha]
      simp only [hr, if_false]
      repeat' split
      all_goals simp_all
  · unfold slipChance slipBase
    split <;> norm_num
  · simp only [slipChance, h1, h2, if_true, if_false]

/-- Witness for C6: with a stable grip at mid-lift and random sample 0 the
toy detaches; with sample 1 it stays; the unstable rate strictly exceeds
the stable one; the early-lift rate is exactly double. -/
theorem slipModelSpecWitness :
    ((tick { mkIn noHand with rand := 0 }
        { cexStart with state := GameState.LIFTING, clawDepth := 1 / 2,
                        attachedToy := some 0 }).attachedToy = none ∧
      (tick { mkIn noHand with rand := 0 }
        { cexStart with state := GameState.LIFTING, clawDepth := 1 / 2,
                        attachedToy := some 0 }).toyConstraint = none) ∧
    (tick { mkIn noHand with rand := 1 }
        { cexStart with state := GameState.LIFTING, clawDepth := 1 / 2,
                        attachedToy := some 0 }).attachedToy = some 0 ∧
    slipChance false 0 < slipChance true 0 ∧
    slipChance false (9 / 10) = 2 * slipChance false (1 / 10) := by
  refine ⟨?_, ?_, ?_, ?_⟩
  · exact (slipModelSpec.2.2.1 { mkIn noHand with rand := 0 }
      { cexStart with state := GameState.LIFTING, clawDepth := 1 / 2,
                      attachedToy := some 0 } 0 rfl rfl).1
      (by norm_num [cexStart, initSt, slipChance, slipBase])
  · exact (slipModelSpec.2.2.1 { mkIn noHand with rand := 1 }
      { cexStart with state := GameState.LIFTING, clawDepth := 1 / 2,
                      attachedToy := some 0 } 0 rfl rfl).2
      (by norm_num [cexStart, initSt, slipChance, slipBase])
  · exact slipModelSpec.2.2.2.1 0
  · exact slipModelSpec.2.2.2.2 false (9 / 10) (1 / 10) (by norm_num)
      (by norm_num)

/-! ### C3 -/

/-- C3 counterexample: on the tick that leaves CARRYING because the
constraint handle is missing, the attached-toy reference and the
instability flag are NOT cleared — they persist into READY, contradicting
the claim that all attempt-scoped state is reset. -/
theorem carryDetachResetCounterexample :
    (tick (mkIn noHand) carryDetachedSt).state = GameState.READY ∧
    (tick (mkIn noHand) carryDetachedSt).attachedToy = some 0 ∧
    (tick (mkIn noHand) carryDetachedSt).isGripUnstable = true := by
  rw [tick_carrying (mkIn noHand) carryDetachedSt rfl]
  unfold tickCarrying carryMove updateConstraint
  dsimp only
  norm_num [carryDetachedSt, cexStart, initSt, mkIn, noHand]

/-- C3 (amended): when the controller leaves CARRYING because the
attached-toy reference or the constraint handle is missing, it transitions
to READY and resets the grip angle and the open-gesture counter in that
tick, but leaves the attached-toy reference, the constraint handle and the
instability flag exactly as they were — they are not cleared. -/
theorem carryDetachBehavior (i : TickIn) (s : GameSt)
    (hs : s.state = GameState.CARRYING)
    (hd : s.attachedToy = none ∨ s.toyConstraint = none) :
    (tick i s).state = GameState.READY ∧
    (tick i s).clawAngle = 0 ∧
    (tick i s).openGestureFrames = 0 ∧
    (tick i s).attachedToy = s.attachedToy ∧
    (tick i s).toyConstraint = s.toyConstraint ∧
    (tick i s).isGripUnstable = s.isGripUnstable := by
  rw [tick_carrying i s hs]
  unfold tickCarrying carryMove updateConstraint
  dsimp only
  rcases ha2 : s.attachedToy with _ | t <;>
    rcases hc2 : s.toyConstraint with _ | c <;>
    simp_all [apply_ite GameSt.attachedToy, apply_ite GameSt.toyConstraint,
      apply_ite GameSt.isGripUnstable, apply_ite GameSt.state,
      apply_ite GameSt.clawAngle, apply_ite GameSt.openGestureFrames,
      ite_self]

/-- Witness for the amended C3 at the concrete detached CARRYING state. -/
theorem carryDetachBehaviorWitness :
    (tick (mkIn openHand) carryDetachedSt).state = GameState.READY ∧
    (tick (mkIn openHand) carryDetachedSt).clawAngle = 0 ∧
    (tick (mkIn openHand) carryDetachedSt).openGestureFrames = 0 ∧
    (tick (mkIn openHand) carryDetachedSt).attachedToy =
      carryDetachedSt.attachedToy ∧
    (tick (mkIn openHand) carryDetachedSt).toyConstraint =
      carryDetachedSt.toyConstraint ∧
    (tick (mkIn openHand) carryDetachedSt).isGripUnstable =
      carryDetachedSt.isGripUnstable :=
  carryDetachBehavior (mkIn openHand) carryDetachedSt rfl (Or.inr rfl)

/-! ### C9 -/

/-- No transition ever targets WAITING_FOR_TOYS: once the controller has
left the settling phase it never re-enters it. -/
theorem tick_no_waiting (i : TickIn) (s : GameSt)
    (h : s.state ≠ GameState.WAITING_FOR_TOYS) :
    (tick i s).state ≠ GameState.WAITING_FOR_TOYS := by
  rcases hs : s.state
  case WAITING_FOR_TOYS => exact absurd hs h
  case COUNTDOWN =>
    rw [tick_countdown i s hs]
    unfold tickCountdown
    repeat' split
    all_goals simp_all
  case READY =>
    rw [tick_ready i s hs]
    unfold tickReady
    dsimp only
    repeat' split
    all_goals simp_all
  case DESCENDING =>
    rw [tick_descending i s hs]
    unfold tickDescending
    repeat' split
    all_goals simp_all
  case CLOSING =>
    rw [tick_closing i s hs]
    unfold tickClosing attemptGrab
    dsimp only
    repeat' split
    all_goals simp_all
  case LIFTING =>
    rw [tick_lifting i s hs]
    unfold tickLifting liftStep updateConstraint
    dsimp only
    repeat' split
    all_goals simp_all
  case CARRYING =>
    rw [tick_carrying i s hs]
    unfold tickCarrying carryMove updateConstraint
    dsimp only
    repeat' split
    all_goals simp_all
  case DROPPING =>
    rw [tick_dropping i s hs]
    unfold tickDropping
    dsimp only
    rcases hc : s.toyConstraint with _ | c <;>
      rcases hd : s.droppingToy with _ | t <;>
      simp only [apply_ite GameSt.toyConstraint, apply_ite GameSt.droppingToy,
        apply_ite GameSt.state, apply_ite GameSt.clawAngle,
        phys_toyConstraint, phys_droppingToy, hc, hd, ite_self] <;>
      repeat' split
    all_goals simp_all

theorem run_no_waiting (n : ℕ) :
    ∀ (ins : ℕ → TickIn) (s : GameSt),
      s.state ≠ GameState.WAITING_FOR_TOYS →
      (run ins n s).state ≠ GameState.WAITING_FOR_TOYS := by
  induction n with
  | zero => exact fun ins s h => h
  | succ m ih =>
    intro ins s h
    simp only [run]
    exact ih (fun k => ins (k + 1)) (tick (ins 0) s) (tick_no_waiting (ins 0) s h)

/-- Remaining in WAITING_FOR_TOYS for `n` ticks forces the settle timer to
stay below the 300-tick bound. -/
theorem waiting_timer_bound (n : ℕ) :
    ∀ (ins : ℕ → TickIn) (s : GameSt),
      s.state = GameState.WAITING_FOR_TOYS →
      (run ins n s).state = GameState.WAITING_FOR_TOYS →
      n = 0 ∨ s.toysSettleTimer + n < 300 := by
  induction n with
  | zero => exact fun ins s _ _ => Or.inl rfl
  | succ m ih =>
    intro ins s hs hr
    right
    simp only [run] at hr
    have hnext : (tick (ins 0) s).state = GameState.WAITING_FOR_TOYS := by
      by_contra hne
      exact run_no_waiting m (fun k => ins (k + 1)) (tick (ins 0) s) hne hr
    rw [tick_waiting (ins 0) s hs] at hnext hr
    unfold tickWaiting at hnext hr
    by_cases hcond : areToysSettled (phys (ins 0) s).world ∨
        300 ≤ (phys (ins 0) s).toysSettleTimer + 1
    · rw [if_pos hcond] at hnext
      simp at hnext
    · rw [if_neg hcond] at hr
      push_neg at hcond
      have h1 : s.toysSettleTimer + 1 < 300 := by
        have := hcond.2
        simp only [phys_toysSettleTimer] at this
        omega
      have h2 := ih (fun k => ins (k + 1))
        { phys (ins 0) s with toysSettleTimer := (phys (ins 0) s).toysSettleTimer + 1 }
        (by simp [hs]) hr
      rcases h2 with h2 | h2
      · omega
      · simp only [phys_toysSettleTimer] at h2
        omega

/-- C9: with toys present, the settling phase hands over to COUNTDOWN on
exactly the first tick at which every toy's speed is below the settle
threshold or the 300-tick max wait has elapsed; staying in settling for
`n` ticks forces `timer + n < 300`; and from the initial state the
controller is out of settling after at most 300 ticks, toys or not. -/
theorem settlingTimerBound :
    (∀ (i : TickIn) (s : GameSt),
        s.state = GameState.WAITING_FOR_TOYS →
        (applyUpd i.upd s.world).filter (fun b => b.label == "Toy") ≠ [] →
        (((tick i s).state = GameState.COUNTDOWN ↔
          ((∀ t ∈ (applyUpd i.upd s.world).filter (fun b => b.label == "Toy"),
              t.vx ^ 2 + t.vy ^ 2 < 4) ∨ 300 ≤ s.toysSettleTimer + 1)) ∧
         ((tick i s).state = GameState.WAITING_FOR_TOYS ↔
          ¬ ((∀ t ∈ (applyUpd i.upd s.world).filter (fun b => b.label == "Toy"),
               t.vx ^ 2 + t.vy ^ 2 < 4) ∨ 300 ≤ s.toysSettleTimer + 1)))) ∧
    (∀ (ins : ℕ → TickIn) (n : ℕ) (s : GameSt),
        s.state = GameState.WAITING_FOR_TOYS →
        (run ins n s).state = GameState.WAITING_FOR_TOYS →
        n = 0 ∨ s.toysSettleTimer + n < 300) ∧
    (∀ (ins : ℕ → TickIn) (n : ℕ) (w : ℚ) (world0 : List Body),
        300 ≤ n →
        (run ins n (initSt w world0)).state ≠ GameState.WAITING_FOR_TOYS) := by
  refine ⟨fun i s hs ht => ?_, fun ins n s hs hr => waiting_timer_bound n ins s hs hr,
    fun ins n w world0 hn hr => ?_⟩
  · have hiff : areToysSettled (applyUpd i.upd s.world) ↔
        (∀ t ∈ (applyUpd i.upd s.world).filter (fun b => b.label == "Toy"),
          t.vx ^ 2 + t.vy ^ 2 < 4) := by
      unfold areToysSettled
      exact ⟨fun h => h.2, fun h => ⟨ht, h⟩⟩
    rw [tick_waiting i s hs]
    unfold tickWaiting
    by_cases hcond : areToysSettled (phys i s).world ∨
        300 ≤ (phys i s).toysSettleTimer + 1
    · rw [if_pos hcond]
      simp only [phys_world, phys_toysSettleTimer] at hcond
      simp only [GameSt.state]
      constructor
      · simp only [true_iff, eq_self_iff_true]
        exact (or_congr hiff Iff.rfl).mp hcond
      · constructor
        · intro h
          exact absurd h (by simp)
        · intro h
          exact absurd ((or_congr hiff Iff.rfl).mp hcond) h
    · rw [if_neg hcond]
      simp only [phys_world, phys_toysSettleTimer] at hcond
      simp only [GameSt.state, hs]
      constructor
      · constructor
        · intro h
          exact absurd h (by simp [hs])
        · intro h
          exact absurd ((or_congr hiff Iff.rfl).mpr h) hcond
      · constructor
        · intro _
          intro h
          exact hcond ((or_congr hiff Iff.rfl).mpr h)
        · intro _
          simp [hs]
  · have h := waiting_timer_bound n ins (initSt w world0) rfl hr
    rcases h with h | h
    · omega
    · simp only [initSt] at h
      omega

/-- Witness for C9: from the fresh session with one resting toy the very
first tick settles into COUNTDOWN, and from a session with no toys at all
300 ticks of the max-wait timer force settling to end. -/
theorem settlingTimerBoundWitness :
    ((tick (mkIn noHand) cexStart).state = GameState.COUNTDOWN ↔
      ((∀ t ∈ (applyUpd (mkIn noHand).upd cexStart.world).filter
            (fun b => b.label == "Toy"), t.vx ^ 2 + t.vy ^ 2 < 4) ∨
        300 ≤ cexStart.toysSettleTimer + 1)) ∧
    (run (fun _ => mkIn noHand) 300 (initSt 800 [])).state ≠
      GameState.WAITING_FOR_TOYS := by
  constructor
  · exact (settlingTimerBound.1 (mkIn noHand) cexStart rfl
      (by simp [cexStart, initSt, applyUpd, sampleToy, sampleDyn, mkIn, noHand])).1
  · exact settlingTimerBound.2.2 (fun _ => mkIn noHand) 300 800 [] (by norm_num)

/-! ### C5 -/

/-- C5: at the instant a grab is triggered the descent target is computed
once and stored: with a toy below, it is
`clamp((topOfHead - hubY - 40) / maxExtension, 0.1, 1)` where the top is
taken over the vertices of `parts[1]` (the head) only, ears excluded; with
no toy below it is the fixed 0.9.  The DESCENDING phase never changes the
stored target, enters CLOSING exactly when the depth reaches it, stops
exactly at the target value, and otherwise advances strictly below it. -/
theorem descentTargetOneShot :
    (∀ (i : TickIn) (s : GameSt) (b : Body) (p0 : List (ℚ × ℚ))
        (p1 : List (ℚ × ℚ)) (rest : List (List (ℚ × ℚ))) (ty : ℚ),
        s.state = GameState.READY → s.lastGesture ≠ GestureType.PINCH →
        i.hand.gesture = GestureType.PINCH → i.hand.isPresent = true →
        0 < s.credits → s.clawY = 50 →
        selectNearestToy (applyUpd i.upd s.world) i.rayHits 50 = some b →
        b.parts = p0 :: p1 :: rest →
        minYofList p1 = some ty →
        (tick i s).targetDescentDepth =
          min 1 (max (1 / 10) ((ty - 50 - 40) / (i.h - 50 - 130)))) ∧
    (∀ (i : TickIn) (s : GameSt),
        s.state = GameState.READY → s.lastGesture ≠ GestureType.PINCH →
        i.hand.gesture = GestureType.PINCH → i.hand.isPresent = true →
        0 < s.credits →
        selectNearestToy (applyUpd i.upd s.world) i.rayHits 50 = none →
        (tick i s).targetDescentDepth = 9 / 10) ∧
    (∀ (i : TickIn) (s : GameSt),
        s.state = GameState.DESCENDING →
        (tick i s).targetDescentDepth = s.targetDescentDepth ∧
        ((tick i s).state = GameState.CLOSING ↔
          s.targetDescentDepth ≤ s.clawDepth + 12 / 1000) ∧
        ((tick i s).state = GameState.CLOSING →
          (tick i s).clawDepth = s.targetDescentDepth) ∧
        ((tick i s).state = GameState.DESCENDING →
          (tick i s).clawDepth = s.clawDepth + 12 / 1000 ∧
          (tick i s).clawDepth < s.targetDescentDepth)) := by
  refine ⟨fun i s b p0 p1 rest ty hs hl hg hp hc hy hsel hparts hty => ?_,
    fun i s hs hl hg hp hc hsel => ?_, fun i s hs => ?_⟩
  · rw [tickReady_trigger i s hs hl hg hp hc]
    simp only [GameSt.targetDescentDepth]
    rw [hy]
    simp only [computeDescentTarget, hsel, headTopY, hparts, hty]
  · rw [tickReady_trigger i s hs hl hg hp hc]
    simp only [GameSt.targetDescentDepth]
    simp only [computeDescentTarget, hsel]
  · rw [tick_descending i s hs]
    unfold tickDescending
    by_cases hcond : s.targetDescentDepth ≤ s.clawDepth + 12 / 1000
    · rw [if_pos (by simpa using hcond)]
      refine ⟨by simp, ?_, fun _ => by simp, fun h => ?_⟩
      · simp only [GameSt.state]
        exact iff_of_true trivial hcond
      · simp only [GameSt.state] at h
        exact absurd h (by simp)
    · rw [if_neg (by simpa using hcond)]
      push_neg at hcond
      refine ⟨by simp, ?_, fun h => ?_, fun _ => ?_⟩
      · simp only [GameSt.state, phys_state, hs]
        exact iff_of_false (by simp) (not_le.mpr hcond)
      · simp only [GameSt.state, phys_state, hs] at h
        exact absurd h (by simp)
      · exact ⟨by simp, by simpa using hcond⟩

/-- Witness for C5: the concrete ray toy below the claw produces the
clamped head-top target (the ear vertices at y = 380/400 are ignored), and
a DESCENDING tick preserves the stored target. -/
theorem descentTargetOneShotWitness :
    (tick rayIn
        { cexStart with
            state := GameState.READY, world := [rayToy] }).targetDescentDepth =
      min 1 (max (1 / 10) ((480 - 50 - 40) / ((600 : ℚ) - 50 - 130))) ∧
    (tick (mkIn noHand)
        { cexStart with
            state := GameState.DESCENDING,
            targetDescentDepth := 9 / 10 }).targetDescentDepth = 9 / 10 := by
  constructor
  · exact descentTargetOneShot.1 rayIn
      { cexStart with state := GameState.READY, world := [rayToy] }
      rayToy [] [(390, 480), (410, 480), (400, 520)]
      [[(380, 400), (395, 400), (388, 380)]] 480 rfl
      (by simp [cexStart, initSt]) rfl rfl (by simp [cexStart, initSt]) rfl
      (by norm_num [selectNearestToy, lookupBody, applyUpd, rayToy, rayDyn,
        rayIn])
      rfl (by norm_num [minYofList])
  · exact ((descentTargetOneShot.2.2 (mkIn noHand)
      { cexStart with
          state := GameState.DESCENDING,
          targetDescentDepth := 9 / 10 }) rfl).1

/-! ### C10 -/

/-- When a toy is attached, the re-pinned constraint anchor is exactly the
claw tip with the 60 px offset. -/
theorem updateConstraint_anchor (maxExt : ℚ) (s : GameSt) (t : ℕ)
    (c : Constraint) (ha : s.attachedToy = some t)
    (hc : (updateConstraint maxExt s).toyConstraint = some c) :
    c.pointAx = s.clawX ∧
    c.pointAy = s.clawY + s.clawDepth * maxExt + 60 := by
  rcases hc0 : s.toyConstraint with _ | c0
  · unfold updateConstraint at hc
    rw [ha, hc0] at hc
    simp at hc
    rw [hc0] at hc
    cases hc
  · unfold updateConstraint at hc
    rw [ha, hc0] at hc
    simp only [Option.some.injEq] at hc
    subst hc
    exact ⟨rfl, rfl⟩

/-- The branches after the constraint re-pin in CARRYING never touch the
constraint, the attachment, or the claw pose. -/
theorem tickCarrying_post (hand : HandInput) (w h : ℚ) (s : GameSt) :
    (tickCarrying hand w h s).toyConstraint =
      (updateConstraint (h - s.clawY - 130) (carryMove hand w s)).toyConstraint ∧
    (tickCarrying hand w h s).attachedToy = (carryMove hand w s).attachedToy ∧
    (tickCarrying hand w h s).clawX = (carryMove hand w s).clawX ∧
    (tickCarrying hand w h s).clawY = (carryMove hand w s).clawY ∧
    (tickCarrying hand w h s).clawDepth = (carryMove hand w s).clawDepth := by
  have hf := updateConstraint_frame (h - s.clawY - 130) (carryMove hand w s)
  obtain ⟨_, _, _, _, hAt, hDep, _, hX, hY, _, _, _, _⟩ := hf
  unfold tickCarrying
  dsimp only
  repeat' split
  all_goals exact ⟨rfl, hAt, hX, hY, hDep⟩

/-- C10: whenever a toy is attached after a LIFTING or CARRYING tick, the
maintained constraint anchor equals
`(hub X, hub Y + extensionDepth * maxExtension + 60)` for the post-tick
pose; and at attachment time `attemptGrab` both queried the toy and
anchored the constraint at that same 60 px tip point. -/
theorem constraintAnchorAlignment :
    (∀ (i : TickIn) (s : GameSt),
        s.state = GameState.LIFTING ∨ s.state = GameState.CARRYING →
        ∀ (t : ℕ) (c : Constraint),
          (tick i s).attachedToy = some t →
          (tick i s).toyConstraint = some c →
          c.pointAx = (tick i s).clawX ∧
          c.pointAy = (tick i s).clawY +
            (tick i s).clawDepth * (i.h - s.clawY - 130) + 60) ∧
    (∀ (maxExt : ℚ) (s : GameSt) (b : Body),
        findToyAt s.world s.clawX (s.clawY + s.clawDepth * maxExt + 60) 22 =
          some b →
        (attemptGrab maxExt s).attachedToy = some b.id ∧
        (attemptGrab maxExt s).toyConstraint =
          some ⟨s.clawX, s.clawY + s.clawDepth * maxExt + 60, b.id⟩) := by
  constructor
  · intro i s hor t c hat hct
    rcases hor with hs | hs
    · rw [tick_lifting i s hs] at hat hct ⊢
      unfold tickLifting at hat hct ⊢
      have hf := updateConstraint_frame (i.h - (phys i s).clawY - 130)
        (liftStep i.rand (phys i s))
      obtain ⟨_, _, _, _, hAt, hDep, _, hX, hY, _, _, _, _⟩ := hf
      have ha' : (liftStep i.rand (phys i s)).attachedToy = some t :=
        hAt.symm.trans hat
      have hanchor := updateConstraint_anchor _ _ t c ha' hct
      rw [hX, hY, hDep]
      exact hanchor
    · rw [tick_carrying i s hs] at hat hct ⊢
      have hp := tickCarrying_post i.hand i.w i.h (phys i s)
      obtain ⟨hC, hAt, hX, hY, hDep⟩ := hp
      have ha' : (carryMove i.hand i.w (phys i s)).attachedToy = some t :=
        hAt.symm.trans hat
      have hct' : (updateConstraint (i.h - (phys i s).clawY - 130)
          (carryMove i.hand i.w (phys i s))).toyConstraint = some c :=
        hC.symm.trans hct
      have hanchor := updateConstraint_anchor _ _ t c ha' hct'
      rw [hX, hY, hDep]
      exact hanchor
  · intro maxExt s b hf
    unfold attemptGrab
    rw [hf]
    exact ⟨rfl, rfl⟩

/-- Witness for C10: a concrete `attemptGrab` on the toy 2 px under the
tip attaches it and anchors the constraint at its own 60 px query point. -/
theorem constraintAnchorAlignmentWitness :
    (attemptGrab 420 grabSt).attachedToy = some grabToy.id ∧
    (attemptGrab 420 grabSt).toyConstraint =
      some ⟨grabSt.clawX, grabSt.clawY + grabSt.clawDepth * 420 + 60,
        grabToy.id⟩ :=
  constraintAnchorAlignment.2 420 grabSt grabToy
    (by norm_num [findToyAt, grabSt, grabToy, cexStart, initSt])

/-! ### C8 -/

/-- Grip resolution at closure completion when the radius query misses:
the claw is fully closed, nothing attaches, the instability flag clears,
and LIFTING begins. -/
theorem tickClosing_miss (i : TickIn) (s : GameSt)
    (hs : s.state = GameState.CLOSING)
    (hangle : 1 ≤ s.clawAngle + 25 / 1000)
    (hmiss : findToyAt (applyUpd i.upd s.world) s.clawX
        (s.clawY + s.clawDepth * (i.h - s.clawY - 130) + 60) 22 = none) :
    tick i s = { phys i s with clawAngle := 1, isGripUnstable := false,
                               state := GameState.LIFTING } := by
  rw [tick_closing i s hs]
  unfold tickClosing
  rw [if_pos (by simpa using hangle)]
  unfold attemptGrab
  dsimp only
  simp only [phys_clawX, phys_clawY, phys_clawDepth, phys_world]
  rw [hmiss]

/-- With no toy attached the constraint re-pin is a no-op. -/
theorem updateConstraint_noToy (maxExt : ℚ) (s : GameSt)
    (ha : s.attachedToy = none) : updateConstraint maxExt s = s := by
  unfold updateConstraint
  rw [ha]

/-- A LIFTING tick with nothing attached: pure retraction, snapping open
to READY at the bottom of the travel. -/
theorem tickLifting_noToy (r h : ℚ) (s : GameSt)
    (ha : s.attachedToy = none) :
    tickLifting r h s =
      if s.clawDepth - 12 / 1000 ≤ 0 then
        { s with clawDepth := 0, clawAngle := 0, state := GameState.READY,
                 isGripUnstable := false }
      else { s with clawDepth := s.clawDepth - 12 / 1000 } := by
  by_cases hd : s.clawDepth - 12 / 1000 ≤ 0
  · rw [if_pos hd]
    unfold tickLifting liftStep
    dsimp only
    simp only [ha]
    rw [if_pos hd]
    rw [updateConstraint_noToy _ _ rfl]
  · rw [if_neg hd]
    unfold tickLifting liftStep
    dsimp only
    simp only [ha]
    rw [if_neg hd]
    rw [updateConstraint_noToy _ _ rfl]

/-- From any LIFTING state with no toy and depth at most `k` retraction
steps, within `k + 1` ticks the controller is READY with the claw open and
score and credits untouched. -/
theorem lifting_noToy_run (k : ℕ) :
    ∀ (ins : ℕ → TickIn) (s : GameSt),
      s.state = GameState.LIFTING → s.attachedToy = none →
      s.clawDepth ≤ (k : ℚ) * (12 / 1000) →
      ∃ n, n ≤ k + 1 ∧ (run ins n s).state = GameState.READY ∧
        (run ins n s).clawAngle = 0 ∧ (run ins n s).score = s.score ∧
        (run ins n s).credits = s.credits := by
  induction k with
  | zero =>
    intro ins s hs ha hd
    refine ⟨1, le_refl 1, ?_⟩
    simp only [run]
    rw [tick_lifting (ins 0) s hs,
      tickLifting_noToy (ins 0).rand (ins 0).h (phys (ins 0) s)
        (by simpa using ha)]
    have hc : (phys (ins 0) s).clawDepth - 12 / 1000 ≤ 0 := by
      simp only [phys_clawDepth]
      norm_num at hd
      linarith
    rw [if_pos hc]
    simp
  | succ m ih =>
    intro ins s hs ha hd
    by_cases hdone : s.clawDepth - 12 / 1000 ≤ 0
    · refine ⟨1, by omega, ?_⟩
      simp only [run]
      rw [tick_lifting (ins 0) s hs,
        tickLifting_noToy (ins 0).rand (ins 0).h (phys (ins 0) s)
          (by simpa using ha)]
      have hc : (phys (ins 0) s).clawDepth - 12 / 1000 ≤ 0 := by
        simpa using hdone
      rw [if_pos hc]
      simp
    · have hc : ¬ (phys (ins 0) s).clawDepth - 12 / 1000 ≤ 0 := by
        simpa using hdone
      have hstep : tick (ins 0) s =
          { phys (ins 0) s with
              clawDepth := (phys (ins 0) s).clawDepth - 12 / 1000 } := by
        rw [tick_lifting (ins 0) s hs,
          tickLifting_noToy (ins 0).rand (ins 0).h (phys (ins 0) s)
            (by simpa using ha)]
        rw [if_neg hc]
      have hd' : ((phys (ins 0) s).clawDepth - 12 / 1000 : ℚ) ≤
          (m : ℚ) * (12 / 1000) := by
        simp only [phys_clawDepth]
        push_cast at hd ⊢
        linarith
      obtain ⟨n, hn, h1, h2, h3, h4⟩ := ih (fun k => ins (k + 1))
        { phys (ins 0) s with
            clawDepth := (phys (ins 0) s).clawDepth - 12 / 1000 }
        (by simp [hs]) (by simpa using ha) (by simpa using hd')
      refine ⟨n + 1, by omega, ?_, ?_, ?_, ?_⟩
      · simp only [run]
        rw [hstep]
        exact h1
      · simp only [run]
        rw [hstep]
        exact h2
      · simp only [run]
        rw [hstep]
        exact h3
      · simp only [run]
        rw [hstep]
        exact h4

/-- C8: when the radius query at grip-close time returns no toy, nothing
attaches, the controller still enters LIFTING fully closed, and within the
full retraction (at most 85 ticks for any depth within [0, 1]) it reaches
READY with `gripAngle = 0` and the score (and credits) unchanged. -/
theorem missedGrabReturnsReady (i : TickIn) (ins : ℕ → TickIn) (s : GameSt)
    (hs : s.state = GameState.CLOSING)
    (hangle : 1 ≤ s.clawAngle + 25 / 1000)
    (ha : s.attachedToy = none)
    (hdepth : s.clawDepth ≤ 1)
    (hmiss : findToyAt (applyUpd i.upd s.world) s.clawX
        (s.clawY + s.clawDepth * (i.h - s.clawY - 130) + 60) 22 = none) :
    (tick i s).state = GameState.LIFTING ∧
    (tick i s).attachedToy = none ∧
    (tick i s).clawAngle = 1 ∧
    ∃ n, n ≤ 85 ∧ (run ins n (tick i s)).state = GameState.READY ∧
      (run ins n (tick i s)).clawAngle = 0 ∧
      (run ins n (tick i s)).score = s.score ∧
      (run ins n (tick i s)).credits = s.credits := by
  rw [tickClosing_miss i s hs hangle hmiss]
  refine ⟨rfl, by simpa using ha, rfl, ?_⟩
  obtain ⟨n, hn, h1, h2, h3, h4⟩ := lifting_noToy_run 84 ins
    { phys i s with clawAngle := 1, isGripUnstable := false,
                    state := GameState.LIFTING }
    rfl (by simpa using ha) (by simp; norm_num; linarith)
  exact ⟨n, by omega, h1, h2, by simpa using h3, by simpa using h4⟩

/-- Witness for C8 at a concrete closure-completing miss over the far-away
resting toy. -/
theorem missedGrabReturnsReadyWitness :
    (tick (mkIn noHand)
        { cexStart with
            state := GameState.CLOSING, clawAngle := 39 / 40,
            clawDepth := 9 / 10 }).state = GameState.LIFTING ∧
    (tick (mkIn noHand)
        { cexStart with
            state := GameState.CLOSING, clawAngle := 39 / 40,
            clawDepth := 9 / 10 }).attachedToy = none ∧
    (tick (mkIn noHand)
        { cexStart with
            state := GameState.CLOSING, clawAngle := 39 / 40,
            clawDepth := 9 / 10 }).clawAngle = 1 ∧
    ∃ n, n ≤ 85 ∧
      (run (fun _ => mkIn noHand) n (tick (mkIn noHand)
        { cexStart with
            state := GameState.CLOSING, clawAngle := 39 / 40,
            clawDepth := 9 / 10 })).state = GameState.READY ∧
      (run (fun _ => mkIn noHand) n (tick (mkIn noHand)
        { cexStart with
            state := GameState.CLOSING, clawAngle := 39 / 40,
            clawDepth := 9 / 10 })).clawAngle = 0 ∧
      (run (fun _ => mkIn noHand) n (tick (mkIn noHand)
        { cexStart with
            state := GameState.CLOSING, clawAngle := 39 / 40,
            clawDepth := 9 / 10 })).score =
        ({ cexStart with
            state := GameState.CLOSING, clawAngle := 39 / 40,
            clawDepth := 9 / 10 } : GameSt).score ∧
      (run (fun _ => mkIn noHand) n (tick (mkIn noHand)
        { cexStart with
            state := GameState.CLOSING, clawAngle := 39 / 40,
            clawDepth := 9 / 10 })).credits =
        ({ cexStart with
            state := GameState.CLOSING, clawAngle := 39 / 40,
            clawDepth := 9 / 10 } : GameSt).credits :=
  missedGrabReturnsReady (mkIn noHand) (fun _ => mkIn noHand)
    { cexStart with
        state := GameState.CLOSING, clawAngle := 39 / 40,
        clawDepth := 9 / 10 }
    rfl (by norm_num) rfl (by norm_num)
    (by norm_num [findToyAt, applyUpd, cexStart, initSt, sampleToy,
      sampleDyn, mkIn, noHand])

/-! ### C4 -/

/-- Every body surviving a tick was already in the world the physics step
produced (the controller only ever removes bodies). -/
theorem tick_world_mem (i : TickIn) (s : GameSt) :
    ∀ bb ∈ (tick i s).world, bb ∈ applyUpd i.upd s.world := by
  rcases hs : s.state
  case WAITING_FOR_TOYS =>
    rw [tick_waiting i s hs]
    unfold tickWaiting
    repeat' split
    all_goals simp
  case COUNTDOWN =>
    rw [tick_countdown i s hs]
    unfold tickCountdown
    repeat' split
    all_goals simp
  case READY =>
    rw [tick_ready i s hs]
    unfold tickReady
    dsimp only
    repeat' split
    all_goals simp
  case DESCENDING =>
    rw [tick_descending i s hs]
    unfold tickDescending
    repeat' split
    all_goals simp
  case CLOSING =>
    rw [tick_closing i s hs]
    unfold tickClosing attemptGrab
    dsimp only
    repeat' split
    all_goals simp
  case LIFTING =>
    rw [tick_lifting i s hs]
    unfold tickLifting liftStep updateConstraint
    dsimp only
    repeat' split
    all_goals simp
  case CARRYING =>
    rw [tick_carrying i s hs]
    unfold tickCarrying carryMove updateConstraint
    dsimp only
    repeat' split
    all_goals simp
  case DROPPING =>
    rw [tick_dropping i s hs]
    unfold tickDropping
    dsimp only
    intro bb hbb
    rcases hc : s.toyConstraint with _ | c <;>
      rcases hd : s.droppingToy with _ | t <;>
      simp only [apply_ite GameSt.toyConstraint, apply_ite GameSt.droppingToy,
        apply_ite GameSt.world, apply_ite GameSt.clawAngle,
        phys_toyConstraint, phys_droppingToy, phys_world, hc, hd,
        ite_self] at hbb <;>
      revert hbb <;>
      repeat' split
    all_goals intro hbb
    all_goals simp_all [List.mem_filter]

/-- C4: a toy released in DROPPING while the claw is at or beyond
0.75 x width becomes the tracked falling toy (score unchanged at release);
a toy released left of the threshold is never tracked; a tracked toy
observed below the screen bottom scores exactly one point, stops being
tracked, and is removed from the physics world; the score changes on no
other occasion, and a removed body never reappears. -/
theorem exitZoneScoringSpec :
    (∀ (i : TickIn) (s : GameSt) (c : Constraint) (t : ℕ),
        s.state = GameState.DROPPING → s.toyConstraint = some c →
        s.attachedToy = some t → s.droppingToy = none →
        (∀ b, lookupBody (applyUpd i.upd s.world) t = some b →
          b.py ≤ i.h + 100) →
        ((i.w * (3 / 4) ≤ s.clawX →
            (tick i s).droppingToy = some t ∧
            (tick i s).score = s.score ∧
            (tick i s).toyConstraint = none ∧
            (tick i s).attachedToy = none) ∧
         (¬ i.w * (3 / 4) ≤ s.clawX →
            (tick i s).droppingToy = none ∧
            (tick i s).score = s.score ∧
            (tick i s).toyConstraint = none ∧
            (tick i s).attachedToy = none))) ∧
    (∀ (i : TickIn) (s : GameSt) (t : ℕ) (b : Body),
        s.state = GameState.DROPPING → s.toyConstraint = none →
        s.droppingToy = some t →
        lookupBody (applyUpd i.upd s.world) t = some b →
        i.h + 100 < b.py →
        (tick i s).score = s.score + 1 ∧
        (tick i s).droppingToy = none ∧
        (∀ bb ∈ (tick i s).world, bb.id ≠ t)) ∧
    (∀ (i : TickIn) (s : GameSt),
        (tick i s).score ≠ s.score →
        s.state = GameState.DROPPING ∧
        (tick i s).score = s.score + 1 ∧
        (s.droppingToy.isSome = true ∨
          (s.toyConstraint.isSome = true ∧ s.attachedToy.isSome = true ∧
            i.w * (3 / 4) ≤ s.clawX))) ∧
    (∀ (ins : ℕ → TickIn) (n : ℕ) (s : GameSt) (t : ℕ),
        (∀ bb ∈ s.world, bb.id ≠ t) →
        ∀ bb ∈ (run ins n s).world, bb.id ≠ t) := by
  refine ⟨fun i s c t hs hc ha hd hpos => ?_, fun i s t b hs hc hd hb hfall => ?_,
    fun i s hchg => ?_, ?_⟩
  · rw [tick_dropping i s hs]
    unfold tickDropping
    dsimp only
    constructor
    · intro hexit
      rcases hb : lookupBody (applyUpd i.upd s.world) t with _ | b
      · simp only [apply_ite GameSt.toyConstraint,
          apply_ite GameSt.attachedToy, apply_ite GameSt.droppingToy,
          apply_ite GameSt.clawAngle, apply_ite GameSt.score,
          apply_ite GameSt.clawX, apply_ite GameSt.world,
          phys_toyConstraint, phys_attachedToy, phys_droppingToy,
          phys_clawX, phys_score, phys_world, hc, ha, hd, ite_self,
          if_pos hexit, hb]
        all_goals simp_all
      · have hnot : ¬ i.h + 100 < b.py := not_lt.mpr (hpos b hb)
        simp only [apply_ite GameSt.toyConstraint,
          apply_ite GameSt.attachedToy, apply_ite GameSt.droppingToy,
          apply_ite GameSt.clawAngle, apply_ite GameSt.score,
          apply_ite GameSt.clawX, apply_ite GameSt.world,
          phys_toyConstraint, phys_attachedToy, phys_droppingToy,
          phys_clawX, phys_score, phys_world, hc, ha, hd, ite_self,
          if_pos hexit, hb, if_neg hnot]
        all_goals simp_all
    · intro hexit
      simp only [apply_ite GameSt.toyConstraint,
        apply_ite GameSt.attachedToy, apply_ite GameSt.droppingToy,
        apply_ite GameSt.clawAngle, apply_ite GameSt.score,
        apply_ite GameSt.clawX, apply_ite GameSt.world,
        phys_toyConstraint, phys_attachedToy, phys_droppingToy,
        phys_clawX, phys_score, phys_world, hc, ha, hd, ite_self,
        if_neg hexit]
      all_goals simp_all
  · rw [tick_dropping i s hs]
    unfold tickDropping
    dsimp only
    simp only [apply_ite GameSt.toyConstraint, apply_ite GameSt.attachedToy,
      apply_ite GameSt.droppingToy, apply_ite GameSt.clawAngle,
      apply_ite GameSt.score, apply_ite GameSt.world,
      phys_toyConstraint, phys_attachedToy, phys_droppingToy, phys_score,
      phys_world, hc, hd, ite_self, hb, if_pos hfall]
    all_goals simp_all [List.mem_filter]
  · by_cases hs : s.state = GameState.DROPPING
    · refine ⟨hs, ?_⟩
      rw [tick_dropping i s hs] at hchg ⊢
      unfold tickDropping at hchg ⊢
      dsimp only at hchg ⊢
      rcases hc : s.toyConstraint with _ | c <;>
        rcases hd : s.droppingToy with _ | t <;>
        rcases ha : s.attachedToy with _ | t2 <;>
        simp only [apply_ite GameSt.toyConstraint,
          apply_ite GameSt.attachedToy, apply_ite GameSt.droppingToy,
          apply_ite GameSt.clawAngle, apply_ite GameSt.score,
          apply_ite GameSt.clawX, apply_ite GameSt.world,
          phys_toyConstraint, phys_attachedToy, phys_droppingToy,
          phys_clawX, phys_score, phys_world, hc, hd, ha, ite_self]
          at hchg ⊢ <;>
        revert hchg <;>
        repeat' split
      all_goals intro hchg
      all_goals simp_all
    · exact absurd ((tick_frame i s).2 hs) hchg
  · intro ins n
    induction n generalizing ins with
    | zero => exact fun s t h => h
    | succ m ih =>
      intro s t h
      simp only [run]
      refine ih (fun k => ins (k + 1)) (tick (ins 0) s) t ?_
      intro bb hbb
      have hmem := tick_world_mem (ins 0) s bb hbb
      unfold applyUpd at hmem
      obtain ⟨bb0, hbb0, hbbeq⟩ := List.mem_map.mp hmem
      have hbid : bb.id = bb0.id := by rw [← hbbeq]
      rw [hbid]
      exact h bb0 hbb0

/-- Witness for C4: a concrete release left of the exit zone tracks
nothing and scores nothing, and a concrete tracked toy observed below the
bottom scores exactly one point and leaves the world for good. -/
theorem exitZoneScoringSpecWitness :
    ((tick (mkIn noHand) dropReleaseSt).droppingToy = none ∧
      (tick (mkIn noHand) dropReleaseSt).score = dropReleaseSt.score ∧
      (tick (mkIn noHand) dropReleaseSt).toyConstraint = none ∧
      (tick (mkIn noHand) dropReleaseSt).attachedToy = none) ∧
    ((tick fallIn dropTrackSt).score = dropTrackSt.score + 1 ∧
      (tick fallIn dropTrackSt).droppingToy = none ∧
      (∀ bb ∈ (tick fallIn dropTrackSt).world, bb.id ≠ 0)) := by
  constructor
  · exact (exitZoneScoringSpec.1 (mkIn noHand) dropReleaseSt ⟨0, 0, 0⟩ 0 rfl
      rfl rfl rfl
      (by
        intro b hb
        norm_num [lookupBody, applyUpd, dropReleaseSt, cexStart, initSt,
          sampleToy, sampleDyn, mkIn, noHand] at hb
        rw [← hb]
        norm_num [mkIn, noHand])).2
      (by norm_num [dropReleaseSt, cexStart, initSt, mkIn, noHand])
  · exact exitZoneScoringSpec.2.1 fallIn dropTrackSt 0 fallenToy rfl rfl rfl
      (by norm_num [lookupBody, applyUpd, dropTrackSt, cexStart, initSt,
        sampleToy, fallDyn, fallIn, fallenToy])
      (by norm_num [fallenToy, fallIn])

/-! ### C2: motion invariant and per-tick rate bounds -/

theorem computeDescentTarget_bounds (w : List Body) (hits : List ℕ)
    (y mE : ℚ) :
    1 / 10 ≤ computeDescentTarget w hits y mE ∧
    computeDescentTarget w hits y mE ≤ 1 := by
  unfold computeDescentTarget
  rcases hsel : selectNearestToy w hits y with _ | b
  · simp only [hsel]
    norm_num
  · simp only [hsel]
    rcases hty : headTopY b with _ | ty
    · simp only [hty]
      norm_num
    · simp only [hty]
      exact ⟨le_min (by norm_num) (le_max_left _ _), min_le_left _ _⟩

/-- The READY tick that does not fire a grab: claw opened and pinned up,
flags reset, cursor smoothing applied, debounce history updated. -/
theorem tickReady_noTrigger (i : TickIn) (s : GameSt)
    (hs : s.state = GameState.READY)
    (hn : ¬ ((s.lastGesture ≠ GestureType.PINCH ∧
        i.hand.gesture = GestureType.PINCH ∧ i.hand.isPresent = true) ∧
      0 < s.credits)) :
    tick i s =
      { phys i s with
          clawAngle := 0, hasTriggeredGrab := false, openGestureFrames := 0,
          clawY := 50,
          clawX := if i.hand.isPresent = true then
              s.clawX + (i.hand.x * i.w - s.clawX) * (1 / 4)
            else s.clawX,
          lastGesture := i.hand.gesture } := by
  rw [tick_ready i s hs]
  unfold tickReady
  dsimp only
  rw [if_neg (by
    intro hcond
    exact hn ⟨hcond.1, by
      rcases hcond with ⟨h1, h2, h3⟩
      revert h2
      split <;> simp_all⟩)]
  split <;> rfl

theorem updateConstraint_state_eq (maxExt : ℚ) (s : GameSt) :
    (updateConstraint maxExt s).state = s.state :=
  (updateConstraint_frame maxExt s).2.2.2.1

theorem updateConstraint_depth_eq (maxExt : ℚ) (s : GameSt) :
    (updateConstraint maxExt s).clawDepth = s.clawDepth :=
  (updateConstraint_frame maxExt s).2.2.2.2.2.1

theorem updateConstraint_angle_eq (maxExt : ℚ) (s : GameSt) :
    (updateConstraint maxExt s).clawAngle = s.clawAngle :=
  (updateConstraint_frame maxExt s).2.2.2.2.2.2.1

theorem updateConstraint_target_eq (maxExt : ℚ) (s : GameSt) :
    (updateConstraint maxExt s).targetDescentDepth = s.targetDescentDepth :=
  (updateConstraint_frame maxExt s).2.2.2.2.2.2.2.2.2.2.2.2

theorem attemptGrab_state_eq (maxExt : ℚ) (s : GameSt) :
    (attemptGrab maxExt s).state = s.state :=
  (attemptGrab_frame maxExt s).2.2.2.1

theorem attemptGrab_depth_eq (maxExt : ℚ) (s : GameSt) :
    (attemptGrab maxExt s).clawDepth = s.clawDepth :=
  (attemptGrab_frame maxExt s).2.2.2.2.1

theorem attemptGrab_angle_eq (maxExt : ℚ) (s : GameSt) :
    (attemptGrab maxExt s).clawAngle = s.clawAngle :=
  (attemptGrab_frame maxExt s).2.2.2.2.2.1

theorem attemptGrab_target_eq (maxExt : ℚ) (s : GameSt) :
    (attemptGrab maxExt s).targetDescentDepth = s.targetDescentDepth :=
  (attemptGrab_frame maxExt s).2.2.2.2.2.2.2.2

theorem liftStep_target (r : ℚ) (s : GameSt) :
    (liftStep r s).targetDescentDepth = s.targetDescentDepth := by
  unfold liftStep
  dsimp only
  repeat' split
  all_goals simp

theorem liftStep_cases (r : ℚ) (s : GameSt) :
    (¬ s.clawDepth - 12 / 1000 ≤ 0 ∧
      (liftStep r s).state = s.state ∧
      (liftStep r s).clawDepth = s.clawDepth - 12 / 1000 ∧
      (liftStep r s).clawAngle = s.clawAngle) ∨
    (s.clawDepth - 12 / 1000 ≤ 0 ∧ (liftStep r s).clawDepth = 0 ∧
      ((liftStep r s).state = GameState.CARRYING ∧
        (liftStep r s).clawAngle = s.clawAngle ∨
       (liftStep r s).state = GameState.READY ∧
        (liftStep r s).clawAngle = 0)) := by
  unfold liftStep
  dsimp only
  rcases ha : s.attachedToy with _ | t <;> simp only [ha]
  · repeat' split
    all_goals simp_all
  · repeat' split
    all_goals simp_all

theorem carryMove_frame (hand : HandInput) (w : ℚ) (s : GameSt) :
    (carryMove hand w s).clawDepth = s.clawDepth ∧
    (carryMove hand w s).clawAngle = s.clawAngle ∧
    (carryMove hand w s).targetDescentDepth = s.targetDescentDepth ∧
    (carryMove hand w s).state = s.state := by
  unfold carryMove
  dsimp only
  split <;> simp

theorem tickCarrying_motion (hand : HandInput) (w h : ℚ) (s : GameSt) :
    (tickCarrying hand w h s).clawDepth = s.clawDepth ∧
    ((tickCarrying hand w h s).clawAngle = s.clawAngle ∨
      (tickCarrying hand w h s).clawAngle = 0) ∧
    (tickCarrying hand w h s).targetDescentDepth = s.targetDescentDepth ∧
    ((tickCarrying hand w h s).state = s.state ∨
      (tickCarrying hand w h s).state = GameState.READY ∨
      (tickCarrying hand w h s).state = GameState.DROPPING) := by
  unfold tickCarrying carryMove updateConstraint
  dsimp only
  repeat' split
  all_goals simp_all

theorem tickDropping_motion (w h : ℚ) (s : GameSt) :
    (tickDropping w h s).clawDepth = s.clawDepth ∧
    (tickDropping w h s).targetDescentDepth = s.targetDescentDepth ∧
    ((tickDropping w h s).state = s.state ∨
      (tickDropping w h s).state = GameState.READY) ∧
    ((tickDropping w h s).clawAngle = s.clawAngle ∨
     ((tickDropping w h s).clawAngle = s.clawAngle - 25 / 1000 ∧
       ¬ s.clawAngle - 25 / 1000 < 0 ∧ 0 < s.clawAngle) ∨
     (tickDropping w h s).clawAngle = 0) := by
  unfold tickDropping
  dsimp only
  rcases hc : s.toyConstraint with _ | c <;>
    rcases hd : s.droppingToy with _ | t <;>
    simp only [apply_ite GameSt.toyConstraint, apply_ite GameSt.droppingToy,
      apply_ite GameSt.clawAngle, apply_ite GameSt.clawDepth,
      apply_ite GameSt.state, apply_ite GameSt.targetDescentDepth,
      hc, hd, ite_self] <;>
    repeat' split
  all_goals simp_all

/-- One tick preserves the invariant, moves `clawDepth` by at most 0.012
and `clawAngle` by at most 0.025 unless it snaps the claw open to 0, and
any change is directed toward the phase target. -/
theorem tick_inv_motion (i : TickIn) (s : GameSt) (h : Inv s) :
    Inv (tick i s) ∧
    s.clawDepth - 12 / 1000 ≤ (tick i s).clawDepth ∧
    (tick i s).clawDepth ≤ s.clawDepth + 12 / 1000 ∧
    ((s.clawAngle - 25 / 1000 ≤ (tick i s).clawAngle ∧
        (tick i s).clawAngle ≤ s.clawAngle + 25 / 1000) ∨
      (tick i s).clawAngle = 0) ∧
    ((tick i s).clawDepth ≠ s.clawDepth →
      (s.state = GameState.DESCENDING ∧ s.clawDepth < (tick i s).clawDepth ∧
        (tick i s).clawDepth ≤ s.targetDescentDepth) ∨
      (s.state = GameState.LIFTING ∧ (tick i s).clawDepth < s.clawDepth ∧
        0 ≤ (tick i s).clawDepth)) ∧
    ((tick i s).clawAngle ≠ s.clawAngle →
      (s.state = GameState.CLOSING ∧ s.clawAngle < (tick i s).clawAngle ∧
        (tick i s).clawAngle ≤ 1) ∨
      (s.state = GameState.DROPPING ∧ (tick i s).clawAngle < s.clawAngle ∧
        0 ≤ (tick i s).clawAngle) ∨
      (tick i s).clawAngle = 0) := by
  obtain ⟨h1, h2, h3, h4, h5, h6, h7, h8⟩ := h
  rcases hs : s.state
  case WAITING_FOR_TOYS =>
    have hd0 : s.clawDepth = 0 := h8 (by simp [hs])
    rw [tick_waiting i s hs]
    unfold tickWaiting Inv
    split
    all_goals
      refine ⟨⟨by simp_all, by simp_all, by simp_all, by simp_all,
        by simp_all, by simp_all, by intro hst; simp_all,
        by intro hst; simp_all⟩, by simp <;> linarith, by simp <;> linarith,
        Or.inl ⟨by simp <;> linarith, by simp <;> linarith⟩,
        by intro hne; simp_all, by intro hne; simp_all⟩
  case COUNTDOWN =>
    have hd0 : s.clawDepth = 0 := h8 (by simp [hs])
    rw [tick_countdown i s hs]
    unfold tickCountdown Inv
    split
    all_goals
      refine ⟨⟨by simp_all, by simp_all, by simp_all, by simp_all,
        by simp_all, by simp_all, by intro hst; simp_all,
        by intro hst; simp_all⟩, by simp <;> linarith, by simp <;> linarith,
        Or.inl ⟨by simp <;> linarith, by simp <;> linarith⟩,
        by intro hne; simp_all, by intro hne; simp_all⟩
  case READY =>
    have hd0 : s.clawDepth = 0 := h8 (by simp [hs])
    by_cases htrig : (s.lastGesture ≠ GestureType.PINCH ∧
        i.hand.gesture = GestureType.PINCH ∧ i.hand.isPresent = true) ∧
        0 < s.credits
    · rw [tickReady_trigger i s hs htrig.1.1 htrig.1.2.1 htrig.1.2.2 htrig.2]
      have hb := computeDescentTarget_bounds (applyUpd i.upd s.world)
        i.rayHits 50 (i.h - s.clawY - 130)
      unfold Inv
      refine ⟨⟨by simp_all, by simp_all, by simp <;> norm_num, by simp <;> norm_num,
        by simp_all, by simp_all, by intro hst; simp_all; linarith,
        by intro hst; simp_all⟩, by simp <;> linarith, by simp <;> linarith,
        Or.inr (by simp), by intro hne; simp_all,
        by intro hne; exact Or.inr (Or.inr (by simp))⟩
    · rw [tickReady_noTrigger i s hs htrig]
      unfold Inv
      refine ⟨⟨by simp_all, by simp_all, by simp <;> norm_num, by simp <;> norm_num,
        by simp_all, by simp_all, by intro hst; simp_all,
        by intro hst; simp_all⟩, by simp <;> linarith, by simp <;> linarith,
        Or.inr (by simp), by intro hne; simp_all,
        by intro hne; exact Or.inr (Or.inr (by simp))⟩
  case DESCENDING =>
    have hdt : s.clawDepth ≤ s.targetDescentDepth := h7 hs
    rw [tick_descending i s hs]
    unfold tickDescending Inv
    split <;> rename_i hcond <;>
      simp only [phys_targetDescentDepth, phys_clawDepth] at hcond
    · refine ⟨⟨by simp <;> linarith, by simp <;> linarith, by simp_all,
        by simp_all, by simp_all, by simp_all, by intro hst; simp_all,
        by intro hst; simp_all⟩, by simp <;> linarith, by simp <;> linarith,
        Or.inl ⟨by simp <;> linarith, by simp <;> linarith⟩,
        by
          intro hne
          simp at hne
          exact Or.inl ⟨rfl, lt_of_le_of_ne hdt fun hh => hne hh.symm,
            by simp⟩,
        by intro hne; simp_all⟩
    · push_neg at hcond
      refine ⟨⟨by simp <;> linarith, by simp <;> linarith, by simp_all,
        by simp_all, by simp_all, by simp_all, by intro hst; simp; linarith,
        by intro hst; simp_all⟩, by simp <;> linarith, by simp <;> linarith,
        Or.inl ⟨by simp <;> linarith, by simp <;> linarith⟩,
        by intro hne; exact Or.inl ⟨rfl, by simp <;> linarith, by simp <;> linarith⟩,
        by intro hne; simp_all⟩
  case CLOSING =>
    rw [tick_closing i s hs]
    unfold tickClosing
    split <;> rename_i hcond <;> simp only [phys_clawAngle] at hcond
    · refine ⟨⟨?_, ?_, ?_, ?_, ?_, ?_, ?_, ?_⟩, ?_, ?_, Or.inl ⟨?_, ?_⟩,
        ?_, ?_⟩
      · simp [attemptGrab_depth_eq] <;> linarith
      · simp [attemptGrab_depth_eq] <;> linarith
      · simp [attemptGrab_angle_eq] <;> norm_num
      · simp [attemptGrab_angle_eq] <;> norm_num
      · simp [attemptGrab_target_eq] <;> linarith
      · simp [attemptGrab_target_eq] <;> linarith
      · intro hst
        simp at hst
      · intro hst
        simp at hst
      · simp [attemptGrab_depth_eq] <;> linarith
      · simp [attemptGrab_depth_eq] <;> linarith
      · simp [attemptGrab_angle_eq] <;> linarith
      · simp [attemptGrab_angle_eq] <;> linarith
      · intro hne
        simp [attemptGrab_depth_eq] at hne
      · intro hne
        simp [attemptGrab_angle_eq] at hne
        refine Or.inl ⟨rfl, ?_, ?_⟩
        · simp [attemptGrab_angle_eq]
          exact lt_of_le_of_ne h4 fun hh => by simp [hh] at hne
        · simp [attemptGrab_angle_eq]
    · push_neg at hcond
      refine ⟨⟨?_, ?_, ?_, ?_, ?_, ?_, ?_, ?_⟩, ?_, ?_, Or.inl ⟨?_, ?_⟩,
        ?_, ?_⟩
      · simp <;> linarith
      · simp <;> linarith
      · simp <;> linarith
      · simp <;> linarith
      · simp <;> linarith
      · simp <;> linarith
      · intro hst
        simp [hs] at hst
      · intro hst
        simp [hs] at hst
      · simp <;> linarith
      · simp <;> linarith
      · simp <;> linarith
      · simp <;> linarith
      · intro hne
        simp at hne
      · intro hne
        refine Or.inl ⟨rfl, ?_, ?_⟩ <;> simp <;> linarith
  case LIFTING =>
    rw [tick_lifting i s hs]
    unfold tickLifting
    have hTg2 := liftStep_target i.rand (phys i s)
    simp only [phys_targetDescentDepth] at hTg2
    rcases liftStep_cases i.rand (phys i s) with
      ⟨hc, hst', hd', ha'⟩ | ⟨hc, hd', hrest⟩
    · simp only [phys_clawDepth, phys_clawAngle, phys_state] at hc hd' ha' hst'
      refine ⟨⟨?_, ?_, ?_, ?_, ?_, ?_, ?_, ?_⟩, ?_, ?_, Or.inl ⟨?_, ?_⟩,
        ?_, ?_⟩
      · simp [updateConstraint_depth_eq, hd'] <;> linarith
      · simp [updateConstraint_depth_eq, hd'] <;> linarith
      · simp [updateConstraint_angle_eq, ha'] <;> linarith
      · simp [updateConstraint_angle_eq, ha'] <;> linarith
      · simp [updateConstraint_target_eq, hTg2] <;> linarith
      · simp [updateConstraint_target_eq, hTg2] <;> linarith
      · intro hst
        simp [updateConstraint_state_eq, hst', hs] at hst
      · intro hst
        simp [updateConstraint_state_eq, hst', hs] at hst
      · simp [updateConstraint_depth_eq, hd'] <;> linarith
      · simp [updateConstraint_depth_eq, hd'] <;> linarith
      · simp [updateConstraint_angle_eq, ha'] <;> linarith
      · simp [updateConstraint_angle_eq, ha'] <;> linarith
      · intro hne
        refine Or.inr ⟨rfl, ?_, ?_⟩ <;>
          simp [updateConstraint_depth_eq, hd'] <;> linarith
      · intro hne
        simp [updateConstraint_angle_eq, ha'] at hne
    · simp only [phys_clawDepth] at hc hd'
      have hdpos : s.clawDepth ≠ 0 → 0 < s.clawDepth := fun hz =>
        lt_of_le_of_ne h1 fun hh => hz hh.symm
      rcases hrest with ⟨hst', ha'⟩ | ⟨hst', ha'⟩ <;>
        (try simp only [phys_clawAngle, phys_state] at hst' ha')
      · refine ⟨⟨?_, ?_, ?_, ?_, ?_, ?_, ?_, ?_⟩, ?_, ?_, Or.inl ⟨?_, ?_⟩,
          ?_, ?_⟩
        · simp [updateConstraint_depth_eq, hd']
        · simp [updateConstraint_depth_eq, hd'] <;> norm_num
        · simp [updateConstraint_angle_eq, ha'] <;> linarith
        · simp [updateConstraint_angle_eq, ha'] <;> linarith
        · simp [updateConstraint_target_eq, hTg2] <;> linarith
        · simp [updateConstraint_target_eq, hTg2] <;> linarith
        · intro hst
          simp [updateConstraint_state_eq, hst'] at hst
        · intro hst
          simp [updateConstraint_depth_eq, hd']
        · simp [updateConstraint_depth_eq, hd'] <;> linarith
        · simp [updateConstraint_depth_eq, hd'] <;> linarith
        · simp [updateConstraint_angle_eq, ha'] <;> linarith
        · simp [updateConstraint_angle_eq, ha'] <;> linarith
        · intro hne
          simp [updateConstraint_depth_eq, hd'] at hne
          refine Or.inr ⟨rfl, ?_, ?_⟩
          · simp [updateConstraint_depth_eq, hd']
            exact hdpos fun hh => by simp [hh] at hne
          · simp [updateConstraint_depth_eq, hd']
        · intro hne
          simp [updateConstraint_angle_eq, ha'] at hne
      · refine ⟨⟨?_, ?_, ?_, ?_, ?_, ?_, ?_, ?_⟩, ?_, ?_, Or.inr ?_,
          ?_, ?_⟩
        · simp [updateConstraint_depth_eq, hd']
        · simp [updateConstraint_depth_eq, hd'] <;> norm_num
        · simp [updateConstraint_angle_eq, ha']
        · simp [updateConstraint_angle_eq, ha'] <;> norm_num
        · simp [updateConstraint_target_eq, hTg2] <;> linarith
        · simp [updateConstraint_target_eq, hTg2] <;> linarith
        · intro hst
          simp [updateConstraint_state_eq, hst'] at hst
        · intro hst
          simp [updateConstraint_depth_eq, hd']
        · simp [updateConstraint_depth_eq, hd'] <;> linarith
        · simp [updateConstraint_depth_eq, hd'] <;> linarith
        · simp [updateConstraint_angle_eq, ha']
        · intro hne
          simp [updateConstraint_depth_eq, hd'] at hne
          refine Or.inr ⟨rfl, ?_, ?_⟩
          · simp [updateConstraint_depth_eq, hd']
            exact hdpos fun hh => by simp [hh] at hne
          · simp [updateConstraint_depth_eq, hd']
        · intro hne
          exact Or.inr (Or.inr (by simp [updateConstraint_angle_eq, ha']))
  case CARRYING =>
    have hd0 : s.clawDepth = 0 := h8 (by simp [hs])
    rw [tick_carrying i s hs]
    obtain ⟨hDep, hAng, hTgt, hStC⟩ :=
      tickCarrying_motion i.hand i.w i.h (phys i s)
    simp only [phys_clawDepth, phys_clawAngle, phys_targetDescentDepth,
      phys_state] at hDep hAng hTgt hStC
    have hstne : (tickCarrying i.hand i.w i.h (phys i s)).state ≠
        GameState.DESCENDING := by
      rcases hStC with hx | hx | hx <;> rw [hx] <;> simp [hs]
    refine ⟨⟨by rw [hDep]; linarith, by rw [hDep]; linarith, ?_, ?_,
      by rw [hTgt]; linarith, by rw [hTgt]; linarith,
      fun hst => absurd hst hstne, fun _ => by rw [hDep, hd0]⟩,
      by rw [hDep]; linarith, by rw [hDep]; linarith, ?_,
      by intro hne; rw [hDep] at hne; exact absurd rfl hne, ?_⟩
    · rcases hAng with hx | hx <;> rw [hx] <;> linarith
    · rcases hAng with hx | hx <;> rw [hx] <;> linarith
    · rcases hAng with hx | hx
      · exact Or.inl ⟨by rw [hx] <;> linarith, by rw [hx] <;> linarith⟩
      · exact Or.inr (by rw [hx])
    · intro hne
      rcases hAng with hx | hx
      · rw [hx] at hne
        exact absurd rfl hne
      · exact Or.inr (Or.inr (by rw [hx]))
  case DROPPING =>
    have hd0 : s.clawDepth = 0 := h8 (by simp [hs])
    rw [tick_dropping i s hs]
    obtain ⟨hDep, hTgt, hStC, hAng⟩ := tickDropping_motion i.w i.h (phys i s)
    simp only [phys_clawDepth, phys_clawAngle, phys_targetDescentDepth,
      phys_state] at hDep hTgt hStC hAng
    have hstne : (tickDropping i.w i.h (phys i s)).state ≠
        GameState.DESCENDING := by
      rcases hStC with hx | hx <;> rw [hx] <;> simp [hs]
    refine ⟨⟨by rw [hDep]; linarith, by rw [hDep]; linarith, ?_, ?_,
      by rw [hTgt]; linarith, by rw [hTgt]; linarith,
      fun hst => absurd hst hstne, fun _ => by rw [hDep, hd0]⟩,
      by rw [hDep]; linarith, by rw [hDep]; linarith, ?_,
      by intro hne; rw [hDep] at hne; exact absurd rfl hne, ?_⟩
    · rcases hAng with hx | ⟨hx, hx2, hx3⟩ | hx <;> rw [hx] <;> linarith
    · rcases hAng with hx | ⟨hx, hx2, hx3⟩ | hx <;> rw [hx] <;> linarith
    · rcases hAng with hx | ⟨hx, hx2, hx3⟩ | hx
      · exact Or.inl ⟨by rw [hx] <;> linarith, by rw [hx] <;> linarith⟩
      · exact Or.inl ⟨by rw [hx] <;> linarith, by rw [hx] <;> linarith⟩
      · exact Or.inr (by rw [hx])
    · intro hne
      rcases hAng with hx | ⟨hx, hx2, hx3⟩ | hx
      · rw [hx] at hne
        exact absurd rfl hne
      · exact Or.inr (Or.inl ⟨rfl, by rw [hx] <;> linarith, by rw [hx] <;> linarith⟩)
      · exact Or.inr (Or.inr (by rw [hx]))

/-! ### The concrete end-to-end trace for the C2 counterexample -/

theorem run_succ (ins : ℕ → TickIn) (n : ℕ) (s : GameSt) :
    run ins (n + 1) s = tick (ins n) (run ins n s) := by
  induction n generalizing ins s with
  | zero => rfl
  | succ m ih =>
    show run (fun k => ins (k + 1)) (m + 1) (tick (ins 0) s) = _
    rw [ih]
    rfl

theorem cexRun_succ (n : ℕ) : cexRun (n + 1) = tick (cexInput n) (cexRun n) :=
  run_succ cexInput n cexStart

theorem cexInput_ne (n : ℕ) (hn : n ≠ 181) : cexInput n = mkIn noHand :=
  if_neg hn

theorem cexInput_eq : cexInput 181 = mkIn pinchHand := rfl

theorem cexRun_one : cexRun 1 = cdPh 180 := by
  rw [show (1 : ℕ) = 0 + 1 from rfl, cexRun_succ 0]
  rw [show cexRun 0 = cexStart from rfl, cexInput_ne 0 (by decide)]
  rw [tick_waiting _ _ rfl]
  show tickWaiting cexStart = cdPh 180
  unfold tickWaiting
  rw [if_pos]
  · rfl
  · left
    constructor
    · decide
    · intro t ht
      have h2 : t ∈ cexStart.world := (List.mem_filter.mp ht).1
      have h3 : t = sampleToy := by simpa [cexStart, initSt] using h2
      rw [h3]
      norm_num [sampleToy]

theorem cex_step_cd (n : ℕ) (hn : n ≠ 181) (t : ℤ) (ht : ¬ t - 1 ≤ 0) :
    tick (cexInput n) (cdPh t) = cdPh (t - 1) := by
  rw [cexInput_ne n hn, tick_countdown _ _ rfl]
  show tickCountdown (cdPh t) = cdPh (t - 1)
  unfold tickCountdown
  rw [show (cdPh t).countdownTimer = t from rfl, if_neg ht]
  rfl

theorem cex_cd_run (j : ℕ) (hj : j ≤ 179) : cexRun (1 + j) = cdPh (180 - j) := by
  induction j with
  | zero => simpa using cexRun_one
  | succ m ih =>
    have hm : m ≤ 179 := le_trans (Nat.le_succ m) hj
    have hm' : m ≤ 178 := by omega
    rw [show 1 + (m + 1) = (1 + m) + 1 from rfl, cexRun_succ, ih hm]
    rw [cex_step_cd (1 + m) (by omega) (180 - m) (by
      push_cast
      omega)]
    congr 1
    push_cast
    ring

theorem cexRun_181 : cexRun 181 = rdPh := by
  rw [show (181 : ℕ) = 180 + 1 from rfl, cexRun_succ]
  rw [show (180 : ℕ) = 1 + 179 from rfl, cex_cd_run 179 le_rfl]
  rw [cexInput_ne 180 (by decide), tick_countdown _ _ rfl]
  show tickCountdown (cdPh (180 - (179 : ℕ))) = rdPh
  unfold tickCountdown
  rw [show (cdPh (180 - (179 : ℕ))).countdownTimer = (180 - ((179 : ℕ) : ℤ))
    from rfl]
  rw [if_pos (by omega)]
  unfold rdPh cdPh cexStart initSt
  norm_num

theorem computeDescentTarget_nil (w : List Body) (cy me : ℚ) :
    computeDescentTarget w [] cy me = 9 / 10 := rfl

theorem cexRun_182 : cexRun 182 = dsPh 0 := by
  rw [show (182 : ℕ) = 181 + 1 from rfl, cexRun_succ, cexRun_181, cexInput_eq]
  rw [tick_ready _ _ rfl]
  show tickReady pinchHand 800 600 [] rdPh = dsPh 0
  unfold tickReady
  dsimp only
  rw [if_pos]
  · simp only [computeDescentTarget_nil, pinchHand, rdPh, dsPh, cexStart,
      initSt]
    norm_num
  · refine ⟨⟨by decide, rfl, rfl⟩, by decide, rfl⟩

theorem cex_step_ds (n : ℕ) (hn : n ≠ 181) (d : ℚ)
    (hd : ¬ 9 / 10 ≤ d + 12 / 1000) :
    tick (cexInput n) (dsPh d) = dsPh (d + 12 / 1000) := by
  rw [cexInput_ne n hn, tick_descending _ _ rfl]
  show tickDescending (dsPh d) = dsPh (d + 12 / 1000)
  unfold tickDescending
  rw [show (dsPh d).targetDescentDepth = (9 / 10 : ℚ) from rfl,
    show (dsPh d).clawDepth = d from rfl, if_neg hd]
  rfl

theorem cex_ds_run (j : ℕ) (hj : j ≤ 74) :
    cexRun (182 + j) = dsPh (3 * j / 250) := by
  induction j with
  | zero =>
    rw [show (182 + 0 : ℕ) = 182 from rfl, cexRun_182]
    norm_num
  | succ m ih =>
    have hm : m ≤ 74 := le_trans (Nat.le_succ m) hj
    have hm' : (m : ℚ) ≤ 73 := by
      have : m ≤ 73 := by omega
      exact_mod_cast this
    rw [show 182 + (m + 1) = (182 + m) + 1 from rfl, cexRun_succ, ih hm]
    rw [cex_step_ds (182 + m) (by omega) _ (by intro hle; nlinarith)]
    congr 1
    push_cast
    ring

theorem cexRun_257 : cexRun 257 = clPh 0 := by
  rw [show (257 : ℕ) = (182 + 74) + 1 from rfl, cexRun_succ,
    cex_ds_run 74 le_rfl]
  rw [cexInput_ne (182 + 74) (by decide), tick_descending _ _ rfl]
  show tickDescending (dsPh (3 * (74 : ℕ) / 250)) = clPh 0
  unfold tickDescending
  rw [show (dsPh (3 * (74 : ℕ) / 250)).targetDescentDepth = (9 / 10 : ℚ)
      from rfl,
    show (dsPh (3 * (74 : ℕ) / 250)).clawDepth = (3 * (74 : ℕ) / 250 : ℚ)
      from rfl]
  rw [if_pos (by push_cast; norm_num)]
  rfl

theorem cex_step_cl (n : ℕ) (hn : n ≠ 181) (a : ℚ)
    (ha : ¬ 1 ≤ a + 25 / 1000) :
    tick (cexInput n) (clPh a) = clPh (a + 25 / 1000) := by
  rw [cexInput_ne n hn, tick_closing _ _ rfl]
  show tickClosing 600 (clPh a) = clPh (a + 25 / 1000)
  unfold tickClosing
  rw [show (clPh a).clawAngle = a from rfl, if_neg ha]
  rfl

theorem cex_cl_run (j : ℕ) (hj : j ≤ 39) :
    cexRun (257 + j) = clPh (j / 40) := by
  induction j with
  | zero =>
    rw [show (257 + 0 : ℕ) = 257 from rfl, cexRun_257]
    norm_num
  | succ m ih =>
    have hm : m ≤ 39 := le_trans (Nat.le_succ m) hj
    have hm' : (m : ℚ) ≤ 38 := by
      have : m ≤ 38 := by omega
      exact_mod_cast this
    rw [show 257 + (m + 1) = (257 + m) + 1 from rfl, cexRun_succ, ih hm]
    rw [cex_step_cl (257 + m) (by omega) _ (by intro hle; nlinarith)]
    congr 1
    push_cast
    ring

theorem cexRun_297 : cexRun 297 = lfPh (9 / 10) := by
  rw [show (297 : ℕ) = (257 + 39) + 1 from rfl, cexRun_succ,
    cex_cl_run 39 le_rfl]
  rw [cexInput_ne (257 + 39) (by decide), tick_closing _ _ rfl]
  show tickClosing 600 (clPh ((39 : ℕ) / 40)) = lfPh (9 / 10)
  unfold tickClosing
  rw [show (clPh ((39 : ℕ) / 40)).clawAngle = (((39 : ℕ) : ℚ) / 40) from rfl]
  rw [if_pos (by push_cast; norm_num)]
  dsimp only
  unfold attemptGrab
  rw [show findToyAt ({ clPh ((39 : ℕ) / 40) with clawAngle := 1 } :
        GameSt).world
      ({ clPh ((39 : ℕ) / 40) with clawAngle := 1 } : GameSt).clawX
      (({ clPh ((39 : ℕ) / 40) with clawAngle := 1 } : GameSt).clawY +
        ({ clPh ((39 : ℕ) / 40) with clawAngle := 1 } : GameSt).clawDepth *
          (600 - ({ clPh ((39 : ℕ) / 40) with clawAngle := 1 } :
            GameSt).clawY - 130) + 60) 22 = none from ?_]
  · rfl
  · show findToyAt [sampleToy] (800 / 2)
      (50 + 9 / 10 * (600 - 50 - 130) + 60) 22 = none
    unfold findToyAt
    simp only [List.foldl_cons, List.foldl_nil, sampleToy]
    rw [if_pos trivial, if_neg (by norm_num)]

theorem cex_step_lf (n : ℕ) (hn : n ≠ 181) (d : ℚ)
    (hd : ¬ d - 12 / 1000 ≤ 0) :
    tick (cexInput n) (lfPh d) = lfPh (d - 12 / 1000) := by
  rw [cexInput_ne n hn, tick_lifting _ _ rfl]
  show tickLifting 1 600 (lfPh d) = lfPh (d - 12 / 1000)
  unfold tickLifting liftStep
  dsimp only
  rw [show (lfPh d).attachedToy = (none : Option ℕ) from rfl]
  dsimp only
  rw [show (lfPh d).clawDepth = d from rfl, if_neg hd]
  rfl

theorem cex_lf_run (j : ℕ) (hj : j ≤ 74) :
    cexRun (297 + j) = lfPh (9 / 10 - 3 * j / 250) := by
  induction j with
  | zero =>
    rw [show (297 + 0 : ℕ) = 297 from rfl, cexRun_297]
    norm_num
  | succ m ih =>
    have hm : m ≤ 74 := le_trans (Nat.le_succ m) hj
    have hm' : (m : ℚ) ≤ 73 := by
      have : m ≤ 73 := by omega
      exact_mod_cast this
    rw [show 297 + (m + 1) = (297 + m) + 1 from rfl, cexRun_succ, ih hm]
    rw [cex_step_lf (297 + m) (by omega) _ (by intro hle; nlinarith)]
    congr 1
    push_cast
    ring

theorem cexRun_371 : cexRun 371 = lfPh (3 / 250) := by
  rw [show (371 : ℕ) = 297 + 74 from rfl, cex_lf_run 74 le_rfl]
  congr 1
  norm_num

theorem cexRun_372 : cexRun 372 = endPh := by
  rw [show (372 : ℕ) = 371 + 1 from rfl, cexRun_succ, cexRun_371]
  rw [cexInput_ne 371 (by decide), tick_lifting _ _ rfl]
  show tickLifting 1 600 (lfPh (3 / 250)) = endPh
  unfold tickLifting liftStep
  dsimp only
  rw [show (lfPh (3 / 250)).attachedToy = (none : Option ℕ) from rfl]
  dsimp only
  rw [show (lfPh (3 / 250)).clawDepth = (3 / 250 : ℚ) from rfl]
  rw [if_pos (by norm_num)]
  rfl

theorem Inv_init (w0 : ℚ) (ws : List Body) : Inv (initSt w0 ws) := by
  refine ⟨by norm_num [initSt], by norm_num [initSt], by norm_num [initSt],
    by norm_num [initSt], by norm_num [initSt], by norm_num [initSt],
    ?_, ?_⟩ <;> intro hst <;> norm_num [initSt] at hst ⊢

theorem run_inv (ins : ℕ → TickIn) (n : ℕ) (s : GameSt) (h : Inv s) :
    Inv (run ins n s) := by
  induction n generalizing ins s with
  | zero => exact h
  | succ m ih =>
    exact ih (fun k => ins (k + 1)) (tick (ins 0) s)
      (tick_inv_motion (ins 0) s h).1

/-- C2 (amended): in every run from a fresh session, `clawDepth` and
`clawAngle` stay within [0, 1]; per tick `clawDepth` moves by at most
0.012, and `clawAngle` either moves by at most 0.025 or is reset to 0;
`clawDepth` moves up only while DESCENDING (never past the stored target)
and down only while LIFTING, and `clawAngle` moves up only while CLOSING
and down only while DROPPING — except for the resets of `clawAngle` to 0,
which may jump by more than the 0.025 rate (see the counterexample). -/
theorem clawMotionInvariant (ins : ℕ → TickIn) (w0 : ℚ) (ws : List Body)
    (n : ℕ) :
    (0 ≤ (run ins n (initSt w0 ws)).clawDepth ∧
      (run ins n (initSt w0 ws)).clawDepth ≤ 1 ∧
      0 ≤ (run ins n (initSt w0 ws)).clawAngle ∧
      (run ins n (initSt w0 ws)).clawAngle ≤ 1) ∧
    ((run ins n (initSt w0 ws)).clawDepth - 12 / 1000 ≤
        (run ins (n + 1) (initSt w0 ws)).clawDepth ∧
      (run ins (n + 1) (initSt w0 ws)).clawDepth ≤
        (run ins n (initSt w0 ws)).clawDepth + 12 / 1000) ∧
    (((run ins n (initSt w0 ws)).clawAngle - 25 / 1000 ≤
          (run ins (n + 1) (initSt w0 ws)).clawAngle ∧
        (run ins (n + 1) (initSt w0 ws)).clawAngle ≤
          (run ins n (initSt w0 ws)).clawAngle + 25 / 1000) ∨
      (run ins (n + 1) (initSt w0 ws)).clawAngle = 0) ∧
    ((run ins (n + 1) (initSt w0 ws)).clawDepth ≠
        (run ins n (initSt w0 ws)).clawDepth →
      ((run ins n (initSt w0 ws)).state = GameState.DESCENDING ∧
          (run ins n (initSt w0 ws)).clawDepth <
            (run ins (n + 1) (initSt w0 ws)).clawDepth ∧
          (run ins (n + 1) (initSt w0 ws)).clawDepth ≤
            (run ins n (initSt w0 ws)).targetDescentDepth) ∨
        ((run ins n (initSt w0 ws)).state = GameState.LIFTING ∧
          (run ins (n + 1) (initSt w0 ws)).clawDepth <
            (run ins n (initSt w0 ws)).clawDepth ∧
          0 ≤ (run ins (n + 1) (initSt w0 ws)).clawDepth)) ∧
    ((run ins (n + 1) (initSt w0 ws)).clawAngle ≠
        (run ins n (initSt w0 ws)).clawAngle →
      ((run ins n (initSt w0 ws)).state = GameState.CLOSING ∧
          (run ins n (initSt w0 ws)).clawAngle <
            (run ins (n + 1) (initSt w0 ws)).clawAngle ∧
          (run ins (n + 1) (initSt w0 ws)).clawAngle ≤ 1) ∨
        ((run ins n (initSt w0 ws)).state = GameState.DROPPING ∧
          (run ins (n + 1) (initSt w0 ws)).clawAngle <
            (run ins n (initSt w0 ws)).clawAngle ∧
          0 ≤ (run ins (n + 1) (initSt w0 ws)).clawAngle) ∨
        (run ins (n + 1) (initSt w0 ws)).clawAngle = 0) := by
  have hInv := run_inv ins n (initSt w0 ws) (Inv_init w0 ws)
  have hm := tick_inv_motion (ins n) (run ins n (initSt w0 ws)) hInv
  rw [run_succ]
  obtain ⟨hI, hd1, hd2, hang, hddir, hadir⟩ := hm
  obtain ⟨i1, i2, i3, i4, _⟩ := hInv
  exact ⟨⟨i1, i2, i3, i4⟩, ⟨hd1, hd2⟩, hang, hddir, hadir⟩

/-- C2 counterexample: in the concrete 372-tick session, tick 371 leaves
a missed-grab LIFTING state whose grip angle is 1 (fully closed) and
snaps it to 0 (fully open) on re-entering READY, a single-tick change of
1 — far beyond the claimed 0.025 per-tick bound, and not a move toward
the closing target. -/
theorem gripAngleSnapCounterexample :
    (cexRun 371).state = GameState.LIFTING ∧
    (cexRun 371).clawAngle = 1 ∧
    cexRun 372 = tick (cexInput 371) (cexRun 371) ∧
    (cexRun 372).clawAngle = 0 ∧
    ¬ ((cexRun 371).clawAngle - 25 / 1000 ≤ (cexRun 372).clawAngle) := by
  refine ⟨?_, ?_, cexRun_succ 371, ?_, ?_⟩
  · rw [cexRun_371]
    rfl
  · rw [cexRun_371]
    rfl
  · rw [cexRun_372]
    rfl
  · rw [cexRun_371, cexRun_372]
    show ¬ ((1 : ℚ) - 25 / 1000 ≤ 0)
    norm_num

/-- Witness for C2 at the concrete trace input, a fresh 800-wide session
with one resting toy, at tick 0. -/
theorem clawMotionInvariantWitness :
    (0 ≤ (run cexInput 0 (initSt 800 [sampleToy])).clawDepth ∧
      (run cexInput 0 (initSt 800 [sampleToy])).clawDepth ≤ 1 ∧
      0 ≤ (run cexInput 0 (initSt 800 [sampleToy])).clawAngle ∧
      (run cexInput 0 (initSt 800 [sampleToy])).clawAngle ≤ 1) ∧
    ((run cexInput 0 (initSt 800 [sampleToy])).clawDepth - 12 / 1000 ≤
        (run cexInput 1 (initSt 800 [sampleToy])).clawDepth ∧
      (run cexInput 1 (initSt 800 [sampleToy])).clawDepth ≤
        (run cexInput 0 (initSt 800 [sampleToy])).clawDepth + 12 / 1000) :=
  ⟨(clawMotionInvariant cexInput 800 [sampleToy] 0).1,
    (clawMotionInvariant cexInput 800 [sampleToy] 0).2.1⟩

end ClawMachine
